import Mathlib

/-!
# Lightlook: a shallow embedding of `src/lightlook.js`

The lightbox widget is modelled as explicit state passing over a `Page` record.
Numbers are exact rationals; a division whose divisor is zero yields one of the
three non-finite values of a JavaScript number (`JsNum`), never a rational.
Exceptions are explicit: every operation returns the page it leaves behind
together with the error it threw, if any.
-/

namespace Lightlook

/-! ## Constants (lines 5-23) -/

def TOUCH_MOVE_THRESHOLD : ℚ := 5
def SWIPE_CLOSE_THRESHOLD : ℚ := 56
def SWIPE_CLOSE_OPACITY_THRESHOLD : ℚ := 32
def SWIPE_CLOSE_OPACITY_DISTANCE : ℚ := 196
def SWIPE_CLOSE_HORIZONTAL_DRAG : ℚ := 35 / 100
def SWIPE_CLOSE_MIN_SCALE : ℚ := 7 / 10
def SWIPE_NAVIGATE_THRESHOLD : ℚ := 32
def DOM_UPDATE_DELAY : Nat := 50
def SHOW_ANIMATION_DURATION : Nat := 250
def HIDE_ANIMATION_DURATION : Nat := 250

/-! ## JavaScript numbers and errors -/

/-- A JavaScript number with exact finite part: a rational, or one of the
non-finite values a division by zero produces. The sign of zero and rounding
are not modelled. -/
inductive JsNum where
  | fin (q : ℚ)
  | posInf
  | negInf
  | nan
  deriving DecidableEq

/-- The exception kinds the module can raise. -/
inductive JsError where
  /-- Evaluation of an identifier that no scope binds. -/
  | referenceError
  /-- Property access on `null` or `undefined`. -/
  | typeError
  deriving DecidableEq

namespace JsNum

/-- Quotient `x / y` of two finite numbers. -/
def div (x y : ℚ) : JsNum :=
  if y = 0 then
    if x = 0 then nan else if 0 < x then posInf else negInf
  else fin (x / y)

/-- The function `Math.min` on two arguments. -/
def min : JsNum → JsNum → JsNum
  | nan, _ => nan
  | _, nan => nan
  | negInf, _ => negInf
  | _, negInf => negInf
  | posInf, b => b
  | a, posInf => a
  | fin a, fin b => fin (Min.min a b)

/-- The function `Math.max` on two arguments. -/
def max : JsNum → JsNum → JsNum
  | nan, _ => nan
  | _, nan => nan
  | posInf, _ => posInf
  | _, posInf => posInf
  | negInf, b => b
  | a, negInf => a
  | fin a, fin b => fin (Max.max a b)

/-- Sum of a number and a finite number. -/
def addFin : JsNum → ℚ → JsNum
  | fin a, b => fin (a + b)
  | x, _ => x

/-- Product of two numbers (`0 * Infinity` is `NaN`). -/
def mul : JsNum → JsNum → JsNum
  | nan, _ => nan
  | _, nan => nan
  | fin a, fin b => fin (a * b)
  | fin a, posInf => if a = 0 then nan else if 0 < a then posInf else negInf
  | fin a, negInf => if a = 0 then nan else if 0 < a then negInf else posInf
  | posInf, fin b => if b = 0 then nan else if 0 < b then posInf else negInf
  | negInf, fin b => if b = 0 then nan else if 0 < b then negInf else posInf
  | posInf, posInf => posInf
  | posInf, negInf => negInf
  | negInf, posInf => negInf
  | negInf, negInf => posInf

/-- The comparison `a <= b` of JavaScript: false as soon as one side is `NaN`. -/
def le : JsNum → JsNum → Prop
  | nan, _ => False
  | _, nan => False
  | negInf, _ => True
  | _, posInf => True
  | fin a, fin b => a ≤ b
  | fin _, negInf => False
  | posInf, fin _ => False
  | posInf, negInf => False

end JsNum

/-! ## Utility functions (lines 40-49) -/

/-- Line 43: `clamp = (x, min, max) => Math.min(Math.max(x, min), max)` on integers. -/
def clamp (x lo hi : ℤ) : ℤ := min (max x lo) hi

/-- Line 43 on numbers, with finite bounds. -/
def clampNum (x : JsNum) (lo hi : ℚ) : JsNum :=
  JsNum.min (JsNum.max x (JsNum.fin lo)) (JsNum.fin hi)

/-- Line 45: `mod = (x, y) => x - y * math.floor(x / y)`.
The body reads the identifier `math` (lower case). The module declares no such
binding and it is not a built-in global (the built-in is `Math`), so its value is
whatever the host page binds to `math`, passed here as `mathFloor`: `none` when
the page binds nothing (evaluation then throws a ReferenceError), `some f` when
the page provides an object whose `floor` method is `f`. A non-finite result
(zero divisor) is `none`. -/
def mod (mathFloor : Option (ℚ → ℤ)) (x y : ℤ) : Except JsError (Option ℤ) :=
  match mathFloor with
  | none => .error .referenceError
  | some fl =>
    if y = 0 then .ok none
    else .ok (some (x - y * fl ((x : ℚ) / (y : ℚ))))

/-- Line 47: `map = (x, from0, to0, from1, to1) =>
(((x - from0) * (to1 - from1)) / (to0 - from0)) + from1`. -/
def map (x from0 to0 from1 to1 : ℚ) : JsNum :=
  JsNum.addFin (JsNum.div ((x - from0) * (to1 - from1)) (to0 - from0)) from1

/-- Line 49: `cmap`, the clamped `map`. -/
def cmap (x from0 to0 from1 to1 : ℚ) : JsNum :=
  clampNum (map x from0 to0 from1 to1) (min from1 to1) (max from1 to1)

/-- The function `Math.round`: nearest integer, halves towards positive infinity. -/
def jsRound (q : ℚ) : ℚ := ((⌊q + 1 / 2⌋ : ℤ) : ℚ)

/-! ## Geometry (lines 120-196) -/

/-- Lines 144-149: a transform; `scale` is the only field a division feeds. -/
structure LightlookTransform where
  x : ℚ := 0
  y : ℚ := 0
  scale : JsNum := JsNum.fin 1
  rotation : ℚ := 0
  deriving DecidableEq

/-- A rectangle as `getBoundingClientRect` reports it. -/
structure Rect where
  left : ℚ
  top : ℚ
  width : ℚ
  height : ℚ
  deriving DecidableEq

/-- Lines 160-166: the numeric fields of a `LightlookImage` (addresses and the
alternate text are presentational and left out). -/
structure LightlookImage where
  width : ℚ
  height : ℚ
  deriving DecidableEq

/-- Lines 258-264: the construction-time options of a gallery. -/
structure Options where
  padding : ℚ := 20
  paddingMinWidth : ℚ := 720
  paddingMinHeight : ℚ := 520
  navigable : Bool := true
  circles : Bool := false
  deriving DecidableEq

/-- Lines 134-142: `LightlookTransform.coveringTransform`. -/
def coveringTransform (targetRect : Rect) (coverRect : LightlookImage)
    (transformOriginX transformOriginY : ℚ) : LightlookTransform :=
  { x := targetRect.left + coverRect.width * -transformOriginX
          + targetRect.width * transformOriginX
    y := targetRect.top + coverRect.height * -transformOriginY
          + targetRect.height * transformOriginY
    scale := JsNum.div targetRect.width coverRect.width }

/-- Lines 171-173: the local `ap` of `fittingTransform`. -/
def effectivePadding (o : Options) (innerWidth innerHeight : ℚ) : ℚ :=
  if innerWidth ≥ o.paddingMinWidth ∧ innerHeight ≥ o.paddingMinHeight then o.padding else 0

/-- Line 176: the local `aw`. -/
def availableWidth (o : Options) (innerWidth innerHeight : ℚ) : ℚ :=
  innerWidth - 2 * effectivePadding o innerWidth innerHeight

/-- Line 177: the local `ah`. -/
def availableHeight (o : Options) (innerWidth innerHeight : ℚ) : ℚ :=
  innerHeight - 2 * effectivePadding o innerWidth innerHeight

/-- Lines 168-195: the getter `fittingTransform`, given the options of the active
gallery and the viewport size. -/
def fittingTransformOf (o : Options) (innerWidth innerHeight : ℚ)
    (img : LightlookImage) : LightlookTransform :=
  let aw := availableWidth o innerWidth innerHeight
  let ah := availableHeight o innerWidth innerHeight
  let iw := img.width
  let ih := img.height
  let rw := JsNum.div (min aw iw) iw
  let rh := JsNum.div (min ah ih) ih
  let scale := JsNum.min rw rh
  let x := jsRound ((innerWidth - iw) / 2)
  let y := jsRound ((innerHeight - ih) / 2)
  { x := x, y := y, scale := scale }

/-- Lines 631-635: the opacity written to the backdrop during a swipe-close move. -/
def swipeCloseBoxOpacity (dyAbs : ℚ) : JsNum :=
  if dyAbs > SWIPE_CLOSE_OPACITY_THRESHOLD then
    cmap (dyAbs - SWIPE_CLOSE_OPACITY_THRESHOLD) 0 SWIPE_CLOSE_OPACITY_DISTANCE 1 0
  else JsNum.fin 1

/-! ## Page state (lines 64-80 and the DOM facts the module writes) -/

/-- An item object, identified by the gallery that constructed it (line 300)
and its position in that gallery's `items`. -/
structure ItemRef where
  gallery : Nat
  index : Nat
  deriving DecidableEq

/-- The data of one item the geometry reads: its full image and the bounding
rectangle of its thumbnail node. -/
structure ItemData where
  image : LightlookImage
  nodeRect : Rect
  deriving DecidableEq

/-- One `Lightlook` instance as constructed at lines 258-301. -/
structure Gallery where
  options : Options
  items : List ItemData

/-- The static part of a page: its gallery instances and the host binding of the
global identifier `math` (see `mod`). -/
structure Site where
  galleries : Nat → Gallery
  mathFloor : Option (ℚ → ℤ)

/-- A state value of a session-history entry: `null`, an object carrying a numeric
`lightlookIndex`, or anything else. -/
inductive HState where
  | null
  | lightlookIndex (i : ℤ)
  | other
  deriving DecidableEq

/-- Lines 83-86: `isHistoryStateWithLightlookIndex`. -/
def isHistoryStateWithLightlookIndex : HState → Bool
  | .lightlookIndex _ => true
  | _ => false

/-- A touch point of a touch event. -/
structure Touch where
  identifier : ℤ
  clientX : ℚ
  clientY : ℚ
  deriving DecidableEq

/-- Lines 583-584: the two session types. -/
inductive SessionType where
  | SWIPE_CLOSE
  | SWIPE_NAVIGATE
  deriving DecidableEq

/-- Lines 573-582: `TouchSession`. -/
structure TouchSession where
  type : Option SessionType := none
  initTouch : Touch
  dx : ℚ := 0
  dy : ℚ := 0
  scale : ℚ := 1
  rotation : ℚ := 0
  deriving DecidableEq

/-- The closures the module hands to `setTimeout`, by the lines that create them. -/
inductive Callback where
  /-- Lines 395-430: the `requestDOMUpdate` callback of `showItem`. -/
  | showUpdate (g : Nat) (newItem : ItemRef) (fromTransform toTransform : LightlookTransform)
  /-- Lines 407-429: the show-completion callback stored in `showTimeout`. -/
  | showDone (g : Nat)
  /-- Lines 426-428: installs the scroll handler. -/
  | installScroll (g : Nat)
  /-- Lines 126-131: the `requestDOMUpdate` callback of `LightlookTransform.transition`. -/
  | transitionStart (toTransform : LightlookTransform) (duration : Nat)
  /-- Line 130: removes the class `uses-transitions`. -/
  | transitionEnd
  /-- Lines 511-531: the hide-completion callback stored in `hideTimeout`. -/
  | hideDone (g : Nat) (setFocus : Bool)
  /-- Line 97: clears `blockingHistory.isBlocking`. -/
  | unblock
  deriving DecidableEq

/-- A pending timer: its handle, the time it becomes due, its callback. -/
structure Timer where
  id : Nat
  due : Nat
  callback : Callback
  deriving DecidableEq

/-- The element a `focus()` call was made on. -/
inductive FocusTarget where
  | wrapper
  | button (item : ItemRef)
  deriving DecidableEq

/-- The mutable state of a page: the module variables of lines 64-102, the
per-instance `currentItem`, the platform state the module reads (viewport,
scroll offsets, session history, timers) and the DOM facts it writes. The seven
listeners of lines 412-419 are installed and removed as one block and are one
flag per gallery. -/
structure Page where
  -- module state
  isOpen : Bool := false
  activeLightlook : Option Nat := none
  showTimeout : Option Nat := none
  hideTimeout : Option Nat := none
  touchsession : Option TouchSession := none
  isLongKeyPress : Bool := false
  isScrollClosing : Bool := false
  initScrollPoint : ℚ × ℚ := (0, 0)
  isBlocking : Bool := false
  -- instance state
  currentItem : Nat → Option ItemRef := fun _ => none
  -- listeners
  itemListeners : ItemRef → Bool := fun _ => true
  openHandlers : Nat → Bool := fun _ => false
  scrollHandler : Nat → Bool := fun _ => false
  keyupOnce : Nat := 0
  -- DOM
  nodeVisible : ItemRef → Bool := fun _ => true
  wrapperHidden : Bool := true
  wrapperOpen : Bool := false
  imageTransform : Option LightlookTransform := none
  imageUsesTransitions : Bool := false
  imageOffset : ℚ × ℚ := (0, 0)
  imageSource : Option ItemRef := none
  boxOpacity : Option JsNum := none
  closeButtonOpacity : Option JsNum := none
  boxUsesTransition : Bool := true
  focusCalls : List FocusTarget := []
  -- platform
  innerWidth : ℚ := 1024
  innerHeight : ℚ := 768
  scrollX : ℚ := 0
  scrollY : ℚ := 0
  now : Nat := 0
  nextTimerId : Nat := 1
  timers : List Timer := []
  entries : List HState := [HState.null]
  cursor : Nat := 0
  pendingBack : Nat := 0

/-- The result of running a piece of the module: the page it leaves and the
exception that ended it, if any. -/
structure Outcome where
  page : Page
  thrown : Option JsError := none

/-- Normal completion. -/
def done (s : Page) : Outcome := { page := s }

/-- Abrupt completion. -/
def raise (s : Page) (e : JsError) : Outcome := { page := s, thrown := some e }

/-- Sequencing: the continuation runs only after a normal completion. -/
def Outcome.andThen (r : Outcome) (f : Page → Outcome) : Outcome :=
  match r.thrown with
  | some _ => r
  | none => f r.page

/-! ## Platform primitives -/

/-- The call `setTimeout(callback, delay)`; the handle it returns is the old
`nextTimerId`. -/
def setTimeout (cb : Callback) (delay : Nat) (s : Page) : Page :=
  { s with timers := s.timers ++ [{ id := s.nextTimerId, due := s.now + delay, callback := cb }]
           nextTimerId := s.nextTimerId + 1 }

/-- The call `clearTimeout(handle)`: the pending timer with that handle, if
there is one, is dropped; `null` (`none`) and stale handles match no timer. -/
def clearTimeout (h : Option Nat) (s : Page) : Page :=
  { s with timers := s.timers.filter (fun t => some t.id ≠ h) }

/-- Lines 51-53: `requestDOMUpdate`. -/
def requestDOMUpdate (cb : Callback) (s : Page) : Page :=
  setTimeout cb DOM_UPDATE_DELAY s

/-- The value `history.state`. -/
def historyState (s : Page) : HState := s.entries.getD s.cursor HState.null

/-- The call `history.pushState`: the entries after the current one are dropped. -/
def pushState (st : HState) (s : Page) : Page :=
  { s with entries := s.entries.take (s.cursor + 1) ++ [st]
           cursor := (s.entries.take (s.cursor + 1)).length }

/-- The call `history.replaceState`. -/
def replaceState (st : HState) (s : Page) : Page :=
  { s with entries := s.entries.set s.cursor st }

/-- Lines 151-156: `applyTo(DOM.image)`. -/
def applyTo (t : LightlookTransform) (s : Page) : Page :=
  { s with imageTransform := some t }

/-- Lines 121-132: `LightlookTransform.transition` on `DOM.image`. -/
def transition (fromTransform : Option LightlookTransform) (toTransform : LightlookTransform)
    (duration : Nat) (s : Page) : Page :=
  let s := match fromTransform with
    | some f => applyTo f s
    | none => s
  requestDOMUpdate (.transitionStart toTransform duration) s

/-- Lines 99-101 with 94-98: `blockingHistory.back()`. The traversal that
`history.back()` requests is carried out later, see `backArrives`. -/
def blockingBack (s : Page) : Page :=
  setTimeout .unblock 0 { s with isBlocking := true, pendingBack := s.pendingBack + 1 }

/-! ## Items (lines 198-256) -/

/-- The item object at a position. -/
def itemData (site : Site) (it : ItemRef) : ItemData :=
  (site.galleries it.gallery).items.getD it.index
    { image := { width := 0, height := 0 }, nodeRect := { left := 0, top := 0, width := 0, height := 0 } }

/-- Lines 243-247: `enableEventListeners`. -/
def enableEventListeners (it : ItemRef) (s : Page) : Page :=
  { s with itemListeners := Function.update s.itemListeners it true }

/-- Lines 249-253: `disableEventListeners`. -/
def disableEventListeners (it : ItemRef) (s : Page) : Page :=
  { s with itemListeners := Function.update s.itemListeners it false }

/-- The assignment `item.node.style.visibility = ...`. -/
def setVisible (it : ItemRef) (v : Bool) (s : Page) : Page :=
  { s with nodeVisible := Function.update s.nodeVisible it v }

/-- The expression `this.items.indexOf(item)` of gallery `g`; `item` may be `null`. -/
def indexOf (site : Site) (g : Nat) (item : Option ItemRef) : ℤ :=
  match item with
  | none => -1
  | some it =>
    if it.gallery = g ∧ it.index < (site.galleries g).items.length then (it.index : ℤ) else -1

/-- The expression `this.items[index]` of gallery `g`: `none` is `undefined`. -/
def itemAt (site : Site) (g : Nat) (index : Option ℤ) : Option ItemRef :=
  match index with
  | none => none
  | some i =>
    if 0 ≤ i ∧ i < ((site.galleries g).items.length : ℤ) then
      some { gallery := g, index := i.toNat }
    else none

/-- The getter `fittingTransform` of lines 168-195 in a page: it reads the
options of `activeLightlook` and throws when that is `null`. -/
def fittingTransform (site : Site) (s : Page) (img : LightlookImage) :
    Except JsError LightlookTransform :=
  match s.activeLightlook with
  | none => .error .typeError
  | some a => .ok (fittingTransformOf (site.galleries a).options s.innerWidth s.innerHeight img)

/-! ## The gallery methods (lines 352-566) -/

/-- Lines 359-472: `showItem` of gallery `g`. The argument is `none` when the
caller passes `undefined` (an `items[index]` outside the array): the comparison
of line 360 is then false and line 367 throws. -/
def showItem (site : Site) (g : Nat) (newItem : Option ItemRef) (setFocus : Bool)
    (s : Page) : Outcome :=
  match newItem with
  | none => raise { s with activeLightlook := some g } .typeError
  | some it =>
    if s.currentItem g = some it then done s
    else
      -- 363-364
      let s := { s with activeLightlook := some g }
      let newIndex := indexOf site g (some it)
      -- 367
      let s := disableEventListeners it s
      -- 369-374
      let s := match s.currentItem g with
        | some cur => setVisible cur true (enableEventListeners cur s)
        | none => s
      -- 377
      let s := clearTimeout s.hideTimeout s
      -- 380-385
      let fromTransform :=
        coveringTransform (itemData site it).nodeRect (itemData site it).image (1 / 2) (1 / 2)
      let toTransform :=
        fittingTransformOf (site.galleries g).options s.innerWidth s.innerHeight
          (itemData site it).image
      -- 387-431
      let s :=
        if s.isOpen then setVisible it false (applyTo toTransform s)
        else
          requestDOMUpdate (.showUpdate g it fromTransform toTransform)
            { applyTo fromTransform s with wrapperHidden := false }
      -- 434-438
      let s :=
        if isHistoryStateWithLightlookIndex (historyState s) then
          replaceState (.lightlookIndex newIndex) s
        else pushState (.lightlookIndex newIndex) s
      -- 441-461
      let s := { s with imageSource := some it, imageOffset := (0, 0) }
      -- 464-466
      let s := if setFocus then { s with focusCalls := s.focusCalls ++ [.wrapper] } else s
      -- 469-471
      done { s with currentItem := Function.update s.currentItem g (some it)
                    isScrollClosing := false
                    isOpen := true }

/-- Lines 479-535: `performClose` of gallery `g`. Line 500 reads
`this.currentItem.node` and throws when `this.currentItem` is `null`. -/
def performClose (site : Site) (g : Nat) (setFocus : Bool) (s : Page) : Outcome :=
  if !s.isOpen then done s
  else
    -- 483
    let s := clearTimeout s.showTimeout s
    -- 486-493
    let s := { s with openHandlers := Function.update s.openHandlers g false }
    -- 496
    let s := { s with wrapperOpen := false }
    -- 499-503
    match s.currentItem g with
    | none => raise s .typeError
    | some cur =>
      let closeTransform :=
        coveringTransform (itemData site cur).nodeRect (itemData site cur).image (1 / 2) (1 / 2)
      -- 505-508
      let s := transition none closeTransform HIDE_ANIMATION_DURATION s
      -- 511-531
      let s := { setTimeout (.hideDone g setFocus) HIDE_ANIMATION_DURATION s with
                 hideTimeout := some s.nextTimerId }
      -- 534
      done { s with isOpen := false }

/-- Lines 541-544: `close`. -/
def close (site : Site) (g : Nat) (setFocus : Bool) (s : Page) : Outcome :=
  (performClose site g setFocus s).andThen fun s => done (blockingBack s)

/-- Lines 546-556: `showItemAtIndex`. -/
def showItemAtIndex (site : Site) (g : Nat) (index : ℤ) (s : Page) : Outcome :=
  if !(site.galleries g).options.navigable then done s
  else if (site.galleries g).options.circles then
    match mod site.mathFloor index ((site.galleries g).items.length : ℤ) with
    | .error e => raise s e
    | .ok index => showItem site g (itemAt site g index) true s
  else
    showItem site g
      (itemAt site g (some (clamp index 0 (((site.galleries g).items.length : ℤ) - 1)))) true s

/-- Lines 558-561: `showNextItem`. -/
def showNextItem (site : Site) (g : Nat) (s : Page) : Outcome :=
  showItemAtIndex site g (indexOf site g (s.currentItem g) + 1) s

/-- Lines 563-566: `showPreviousItem`. -/
def showPreviousItem (site : Site) (g : Nat) (s : Page) : Outcome :=
  showItemAtIndex site g (indexOf site g (s.currentItem g) - 1) s

/-! ## Listeners -/

/-- Lines 104-114: the `popstate` listener, given `event.state`. -/
def popstateListener (site : Site) (state : HState) (s : Page) : Outcome :=
  if s.isBlocking then done s
  else
    match s.activeLightlook with
    | none => done s
    | some a =>
      match state with
      | .null => performClose site a false s
      | .lightlookIndex i => showItemAtIndex site a i s
      | .other => done s

/-- Lines 207-213: `handleClick` of an item. -/
def itemHandleClick (site : Site) (it : ItemRef) (s : Page) : Outcome :=
  if s.isLongKeyPress then done s
  else showItem site it.gallery (some it) true s

/-- Lines 215-230: `handleKeydown` of an item. -/
def itemHandleKeydown (site : Site) (it : ItemRef) (key : Nat) (s : Page) : Outcome :=
  if key = 13 ∨ key = 32 then
    if s.isLongKeyPress then done s
    else
      (showItem site it.gallery (some it) true { s with isLongKeyPress := true }).andThen
        fun s => done { s with keyupOnce := s.keyupOnce + 1 }
  else done s

/-- Lines 303-319: `handleKeydown` of gallery `g`. -/
def handleKeydown (site : Site) (g : Nat) (key : Nat) (s : Page) : Outcome :=
  if key = 13 ∨ key = 27 ∨ key = 32 then
    if s.isLongKeyPress then done s
    else
      (performClose site g true { s with isLongKeyPress := true }).andThen
        fun s => done { s with keyupOnce := s.keyupOnce + 1 }
  else done s

/-- Lines 321-334: `handleKeyup` of gallery `g`. -/
def handleKeyup (site : Site) (g : Nat) (key : Nat) (s : Page) : Outcome :=
  if key = 37 then showPreviousItem site g s
  else if key = 39 then showNextItem site g s
  else done s

/-- Lines 227 and 316: the one-shot `keyup` listeners registered through `once`. -/
def keyupOnceListeners (s : Page) : Page :=
  if s.keyupOnce = 0 then s else { s with isLongKeyPress := false, keyupOnce := 0 }

/-- Lines 336-344: `handleScroll` of gallery `g`. -/
def handleScroll (site : Site) (g : Nat) (s : Page) : Outcome :=
  let r := if !s.isScrollClosing then
      (performClose site g false s).andThen fun s => done { s with isScrollClosing := true }
    else done s
  r.andThen fun s =>
    done { s with imageOffset :=
      (s.initScrollPoint.1 - max s.scrollX 0, s.initScrollPoint.2 - max s.scrollY 0) }

/-- Lines 346-350: `handleResize` of gallery `g`. -/
def handleResize (site : Site) (g : Nat) (s : Page) : Outcome :=
  match s.currentItem g with
  | none => done s
  | some cur =>
    match fittingTransform site s (itemData site cur).image with
    | .error e => raise s e
    | .ok t => done (applyTo t s)

/-! ## Timer callbacks -/

/-- The body of each closure given to `setTimeout`. -/
def runCallback (_site : Site) (cb : Callback) (s : Page) : Page :=
  match cb with
  | .showUpdate g newItem fromTransform toTransform =>
    -- 397-398
    let s := setVisible newItem false { s with wrapperOpen := true }
    -- 401-405
    let s := transition (some fromTransform) toTransform SHOW_ANIMATION_DURATION s
    -- 407, 429
    { setTimeout (.showDone g) SHOW_ANIMATION_DURATION s with showTimeout := some s.nextTimerId }
  | .showDone g =>
    -- 409
    let s := { s with initScrollPoint := (s.scrollX, s.scrollY) }
    -- 412-419
    let s := { s with openHandlers := Function.update s.openHandlers g true }
    -- 426-428
    setTimeout (.installScroll g) HIDE_ANIMATION_DURATION s
  | .installScroll g =>
    { s with scrollHandler := Function.update s.scrollHandler g true }
  | .transitionStart toTransform duration =>
    setTimeout .transitionEnd duration (applyTo toTransform { s with imageUsesTransitions := true })
  | .transitionEnd =>
    { s with imageUsesTransitions := false }
  | .hideDone g setFocus =>
    match s.currentItem g with
    | none => s
    | some cur =>
      -- 514-515
      let s := { s with scrollHandler := Function.update s.scrollHandler g false }
      let s := enableEventListeners cur s
      -- 517-521
      let s := { s with imageSource := none, imageOffset := (0, 0) }
      -- 523-524
      let s := { setVisible cur true s with wrapperHidden := true }
      -- 526-528
      let s := if setFocus then { s with focusCalls := s.focusCalls ++ [.button cur] } else s
      -- 530
      { s with currentItem := Function.update s.currentItem g none }
  | .unblock =>
    { s with isBlocking := false }

/-- A pending timer fires: it leaves the queue, the clock is at least its due
time, its callback runs. A handle that is not pending fires nothing. -/
def fireTimer (site : Site) (id : Nat) (s : Page) : Page :=
  match s.timers.find? (fun t => t.id = id) with
  | none => s
  | some t =>
    runCallback site t.callback
      { s with timers := s.timers.filter (fun u => u.id ≠ id), now := max s.now t.due }

/-! ## Touch (lines 569-677) -/

/-- The expression `activeLightlook.currentItem.image.fittingTransform`. -/
def activeFittingTransform (site : Site) (s : Page) : Except JsError LightlookTransform :=
  match s.activeLightlook with
  | none => .error .typeError
  | some a =>
    match s.currentItem a with
    | none => .error .typeError
    | some cur => fittingTransform site s (itemData site cur).image

/-- Lines 586-597: the `touchstart` listener of the wrapper. -/
def touchstart (changedTouches : List Touch) (s : Page) : Page :=
  match s.touchsession with
  | some _ => s
  | none =>
    match changedTouches with
    | [touch] => { s with touchsession := some { initTouch := touch } }
    | _ => s

/-- Lines 598-644: the `touchmove` listener of the wrapper. -/
def touchmove (site : Site) (changedTouches : List Touch) (s : Page) : Outcome :=
  match s.touchsession with
  | none => done s
  | some ts =>
    match changedTouches.find? (fun x => x.identifier = ts.initTouch.identifier) with
    | none => done s
    | some touch =>
      let dx := touch.clientX - ts.initTouch.clientX
      let dy := touch.clientY - ts.initTouch.clientY
      let dyAbs := |dy|
      let ts := { ts with dx := dx, dy := dy }
      let s := { s with touchsession := some ts }
      match ts.type with
      | none =>
        if changedTouches.length = 1 then
          done { s with touchsession := some { ts with type := some .SWIPE_CLOSE }
                        closeButtonOpacity := some (JsNum.fin 0)
                        boxUsesTransition := false }
        else done s
      | some .SWIPE_CLOSE =>
        match activeFittingTransform site s with
        | .error e => raise s e
        | .ok transform =>
          let transform :=
            { transform with
              x := transform.x + dx * SWIPE_CLOSE_HORIZONTAL_DRAG
              y := transform.y + dy
              scale := JsNum.mul transform.scale
                (cmap dyAbs 0 (s.innerHeight / 2) 1 SWIPE_CLOSE_MIN_SCALE) }
          let s := applyTo transform s
          done { s with boxOpacity := some (swipeCloseBoxOpacity dyAbs) }
      | some .SWIPE_NAVIGATE =>
        match activeFittingTransform site s with
        | .error e => raise s e
        | .ok transform =>
          done (applyTo { transform with x := transform.x + dx } s)

/-- Lines 645-677: the `touchend` listener of the wrapper. -/
def touchend (site : Site) (s : Page) : Outcome :=
  match s.touchsession with
  | none => done s
  | some ts =>
    let r : Outcome :=
      match ts.type with
      | some .SWIPE_CLOSE =>
        -- 651-653
        let s := { s with closeButtonOpacity := none, boxOpacity := none, boxUsesTransition := true }
        -- 655-662
        if |ts.dy| > SWIPE_CLOSE_THRESHOLD then
          match s.activeLightlook with
          | none => raise s .typeError
          | some a => close site a false s
        else
          match activeFittingTransform site s with
          | .error e => raise s e
          | .ok t => done (transition none t SHOW_ANIMATION_DURATION s)
      | some .SWIPE_NAVIGATE =>
        if |ts.dx| > SWIPE_NAVIGATE_THRESHOLD then
          match s.activeLightlook with
          | none => raise s .typeError
          | some a => if ts.dx > 0 then showPreviousItem site a s else showNextItem site a s
        else done s
      | none => done s
    -- 676
    r.andThen fun s => done { s with touchsession := none }

/-! ## The platform driving the module -/

/-- A traversal of the session history to entry `target` has been carried out:
the entry is current and the `popstate` listener receives its state. -/
def traverseTo (site : Site) (target : Nat) (s : Page) : Outcome :=
  if target < s.entries.length ∧ target ≠ s.cursor then
    popstateListener site (s.entries.getD target HState.null) { s with cursor := target }
  else done s

/-- One traversal requested through `history.back()` is carried out. At the
first entry there is nothing to go back to within the page. -/
def backArrives (site : Site) (s : Page) : Outcome :=
  if s.pendingBack = 0 then done s
  else
    let s := { s with pendingBack := s.pendingBack - 1 }
    if s.cursor = 0 then done s
    else traverseTo site (s.cursor - 1) s

/-- What can happen to a page: a call of a public method of gallery `g`, an input
event reaching an installed listener, a timer firing, a history traversal. -/
inductive Action where
  | showItem (g : Nat) (newItem : Option ItemRef) (setFocus : Bool)
  | showItemAtIndex (g : Nat) (index : ℤ)
  | showNextItem (g : Nat)
  | showPreviousItem (g : Nat)
  | performClose (g : Nat) (setFocus : Bool)
  | close (g : Nat) (setFocus : Bool)
  | itemClick (it : ItemRef)
  | itemKeydown (it : ItemRef) (key : Nat)
  | overlayClick (g : Nat)
  | keydown (g : Nat) (key : Nat)
  | keyup (g : Nat) (key : Nat)
  | scroll (g : Nat) (scrollX scrollY : ℚ)
  | resize (g : Nat) (innerWidth innerHeight : ℚ)
  | touchstart (changedTouches : List Touch)
  | touchmove (changedTouches : List Touch)
  | touchend
  | timer (id : Nat)
  | navigate (target : Nat)
  | backArrives
  | wait (ms : Nat)

/-- The effect of an action. An input event runs a listener only while that
listener is installed; the click listeners of lines 412-415 call `close` with
the event object, whose `setFocus` is undefined, hence `false`. -/
def perform (site : Site) (a : Action) (s : Page) : Outcome :=
  match a with
  | .showItem g newItem setFocus => showItem site g newItem setFocus s
  | .showItemAtIndex g index => showItemAtIndex site g index s
  | .showNextItem g => showNextItem site g s
  | .showPreviousItem g => showPreviousItem site g s
  | .performClose g setFocus => performClose site g setFocus s
  | .close g setFocus => close site g setFocus s
  | .itemClick it => if s.itemListeners it then itemHandleClick site it s else done s
  | .itemKeydown it key => if s.itemListeners it then itemHandleKeydown site it key s else done s
  | .overlayClick g => if s.openHandlers g then close site g false s else done s
  | .keydown g key => if s.openHandlers g then handleKeydown site g key s else done s
  | .keyup g key =>
    let s := keyupOnceListeners s
    if s.openHandlers g then handleKeyup site g key s else done s
  | .scroll g scrollX scrollY =>
    let s := { s with scrollX := scrollX, scrollY := scrollY }
    if s.scrollHandler g then handleScroll site g s else done s
  | .resize g innerWidth innerHeight =>
    let s := { s with innerWidth := innerWidth, innerHeight := innerHeight }
    if s.openHandlers g then handleResize site g s else done s
  | .touchstart changedTouches => done (touchstart changedTouches s)
  | .touchmove changedTouches => touchmove site changedTouches s
  | .touchend => touchend site s
  | .timer id => done (fireTimer site id s)
  | .navigate target => traverseTo site target s
  | .backArrives => backArrives site s
  | .wait ms => done { s with now := s.now + ms }

/-- The page after a sequence of actions; an exception ends the action that
raised it and the next action runs on the page it left. -/
def run (site : Site) (acts : List Action) (s : Page) : Page :=
  acts.foldl (fun s a => (perform site a s).page) s

/-- A freshly loaded page: nothing open, every item listening, the given viewport
and session history. -/
def initialPage (innerWidth innerHeight : ℚ) (entries : List HState) (cursor : Nat) : Page :=
  { innerWidth := innerWidth, innerHeight := innerHeight, entries := entries, cursor := cursor }


/-! ## Concrete pages used to exercise the definitions -/

/-- An item with an 800 x 600 full image and a 200 x 150 thumbnail. -/
def sampleItem : ItemData :=
  { image := { width := 800, height := 600 }
    nodeRect := { left := 10, top := 10, width := 200, height := 150 } }

/-- A site whose galleries all have `n` sample items and options `o`, on a host
page that binds nothing to `math`. -/
def sampleSite (o : Options) (n : Nat) : Site :=
  { galleries := fun _ => { options := o, items := List.replicate n sampleItem }
    mathFloor := none }

/-- The page of `sampleSite` right after loading, in a 1024 x 768 viewport. -/
def freshPage : Page := initialPage 1024 768 [HState.null] 0

/-- The sample page with item 1 shown and a one-finger swipe-close session whose
last move ended `dy` pixels below the touch-start point. -/
def swipePage (dy : ℚ) : Page :=
  run (sampleSite {} 3)
    [ .showItem 0 (some { gallery := 0, index := 1 }) true
    , .touchstart [{ identifier := 0, clientX := 100, clientY := 100 }]
    , .touchmove [{ identifier := 0, clientX := 100, clientY := 110 }]
    , .touchmove [{ identifier := 0, clientX := 100, clientY := 100 + dy }] ]
    freshPage

/-- The session of `swipePage dy`. -/
def swipeSession (dy : ℚ) : TouchSession :=
  { type := some .SWIPE_CLOSE
    initTouch := { identifier := 0, clientX := 100, clientY := 100 }
    dx := 100 - 100
    dy := 100 + dy - 100 }

/-- A sequence of `showItem` calls, each given as the gallery it is issued on, the
item and the `setFocus` flag. -/
def showItems (site : Site) (calls : List (Nat × ItemRef × Bool)) (s : Page) : Page :=
  calls.foldl (fun s c => (showItem site c.1 (some c.2.1) c.2.2 s).page) s

/-- The sample page after the overlay has fully opened on item 1: `showItem`,
then the five timers of the show sequence in the order they come due. -/
def openPage : Page :=
  run (sampleSite {} 3)
    [ .showItem 0 (some { gallery := 0, index := 1 }) true
    , .timer 1, .timer 2, .timer 3, .timer 4, .timer 5 ]
    freshPage

/-- The handlers of an item are enabled exactly when it is not the current item
of its gallery, and the current item of a gallery is one of its own items. -/
def ListenersMatch (s : Page) : Prop :=
  (∀ it : ItemRef, s.itemListeners it = true ↔ s.currentItem it.gallery ≠ some it)
    ∧ (∀ (g : Nat) (it : ItemRef), s.currentItem g = some it → it.gallery = g)

/-- The history discipline of a page whose only gallery is `g0`:
the current entry exists; an entry carrying an item index is the last entry of
the stack; while the overlay is open, a last entry carrying an index carries the
position of the current item; a pending hide-completion timer means that the
overlay is not open and is the one `hideTimeout` names; the active gallery, if
any, is `g0`. -/
def HistorySync (site : Site) (g0 : Nat) (s : Page) : Prop :=
  s.cursor < s.entries.length
    ∧ (∀ (k : Nat) (i : ℤ), s.entries[k]? = some (HState.lightlookIndex i) →
        k + 1 = s.entries.length)
    ∧ (s.isOpen = true → ∀ i : ℤ, s.entries.getLast? = some (HState.lightlookIndex i) →
        i = indexOf site g0 (s.currentItem g0))
    ∧ (∀ t ∈ s.timers, ∀ (g : Nat) (f : Bool), t.callback = Callback.hideDone g f →
        s.isOpen = false ∧ s.hideTimeout = some t.id)
    ∧ (∀ a : Nat, s.activeLightlook = some a → a = g0)

/-- An action on a page whose only gallery is `g0`: every gallery it names is
`g0` and every item it names was constructed by `g0`. -/
def Action.onGallery (g0 : Nat) : Action → Prop
  | .showItem g (some it) _ => g = g0 ∧ it.gallery = g0
  | .showItem g none _ => g = g0
  | .showItemAtIndex g _ => g = g0
  | .showNextItem g => g = g0
  | .showPreviousItem g => g = g0
  | .performClose g _ => g = g0
  | .close g _ => g = g0
  | .itemClick it => it.gallery = g0
  | .itemKeydown it _ => it.gallery = g0
  | .overlayClick g => g = g0
  | .keydown g _ => g = g0
  | .keyup g _ => g = g0
  | .scroll g _ _ => g = g0
  | .resize g _ _ => g = g0
  | .touchstart _ => True
  | .touchmove _ => True
  | .touchend => True
  | .timer _ => True
  | .navigate _ => True
  | .backArrives => True
  | .wait _ => True
/-- A browsing session on the sample page: item 1 is opened and the show sequence
runs, the right-arrow key moves to item 2, `close` is called and item 0 is shown
before the requested back-navigation is carried out, then the user goes forward
again. -/
def browseActions : List Action :=
  [ .showItem 0 (some { gallery := 0, index := 1 }) true
  , .timer 1, .timer 2, .timer 3
  , .keyup 0 39
  , .close 0 false
  , .showItem 0 (some { gallery := 0, index := 0 }) true
  , .backArrives
  , .navigate 1 ]

/-- The rectangle shown for a box `[0, w] x [0, h]` placed at the page origin
after scaling it by `s` about the point `(ox * w, oy * h)` and then translating
it by `(x, y)`: a point `q` goes to `p + s * (q - p) + (x, y)` with
`p = (ox * w, oy * h)`. This is how the rendering surface reads
`translate(x, y) scale(s)` with a transform origin at the fraction `(ox, oy)`. -/
def renderedBox (x y s w h ox oy : ℚ) : Rect :=
  { left := ox * w + s * (0 - ox * w) + x
    top := oy * h + s * (0 - oy * h) + y
    width := s * w
    height := s * h }

/-- The pending timer that fires next: the one with the least due time, the
earliest scheduled among equals. -/
def earliestTimer (s : Page) : Option Timer :=
  s.timers.foldl
    (fun best t =>
      match best with
      | none => some t
      | some b => if t.due < b.due then some t else some b)
    none

/-- The next scheduled callback fires. -/
def fireNext (site : Site) (s : Page) : Page :=
  match earliestTimer s with
  | none => s
  | some t => fireTimer site t.id s

/-- The callbacks fire in due order until `n` of them have run. -/
def fireNextTimes (site : Site) : Nat → Page → Page
  | 0, s => s
  | n + 1, s => fireNextTimes site n (fireNext site s)

/-- The sample page on which `showItem` opens item 1 and `performClose` arrives
10 ms later, within the DOM-settle delay of 50 ms. -/
def hastyClosePage : Page :=
  run (sampleSite {} 3)
    [ .showItem 0 (some { gallery := 0, index := 1 }) true
    , .wait 10
    , .performClose 0 true ]
    freshPage

/-- The sample page right after `close` on the fully open overlay. -/
def closingPage : Page := (close (sampleSite {} 3) 0 false openPage).page
/-- The sample page on which `performClose` arrives 10 ms after the deferred
callback of `showItem` has run, while the show-completion timer is pending. -/
def lateClosePage : Page :=
  run (sampleSite {} 3)
    [ .showItem 0 (some { gallery := 0, index := 1 }) true
    , .timer 1
    , .wait 10
    , .performClose 0 true ]
    freshPage
/-- Whether a callback is the deferred callback of `showItem` (lines 395-430). -/
def Callback.isShowUpdate : Callback → Bool
  | .showUpdate _ _ _ _ => true
  | _ => false

/-- Whether a callback is the show completion stored in `showTimeout`
(lines 407-429). -/
def Callback.isShowDone : Callback → Bool
  | .showDone _ => true
  | _ => false

/-- A step that begins no `showItem`: a scheduled callback fires, or
`performClose` of some gallery is called. -/
def Action.closesOrFires : Action → Prop
  | .performClose _ _ => True
  | .timer _ => True
  | _ => False

/-- No show sequence can complete: the overlay is not open, the open visual
state is absent, no gallery has its open handlers installed, and neither the
deferred callback of `showItem` nor a show completion is pending. -/
def ShowCancelled (s : Page) : Prop :=
  s.isOpen = false ∧ (∀ g : Nat, s.openHandlers g = false) ∧ s.wrapperOpen = false
    ∧ ∀ t ∈ s.timers, t.callback.isShowUpdate = false ∧ t.callback.isShowDone = false

/-- The sample page with two galleries in play: gallery 0 opens item 1 and the
show sequence runs to its end, then gallery 1 shows its item 0 in the open
overlay. -/
def twoGalleryPage : Page :=
  run (sampleSite {} 3)
    [ .showItem 0 (some { gallery := 0, index := 1 }) true
    , .timer 1, .timer 2, .timer 3, .timer 4, .timer 5
    , .showItem 1 (some { gallery := 1, index := 0 }) true ]
    freshPage

/-- The sample page on which `performClose` arrives 100 ms after the show
completion has run, while the installation of the scroll handler is pending. -/
def settledClosePage : Page :=
  run (sampleSite {} 3)
    [ .showItem 0 (some { gallery := 0, index := 1 }) true
    , .timer 1, .timer 2, .timer 3
    , .wait 100
    , .performClose 0 true ]
    freshPage

/-- The sample page 10 ms after the deferred callback of `showItem` has run: the
overlay is open on item 1 and the show completion is pending. -/
def settlingPage : Page :=
  run (sampleSite {} 3)
    [ .showItem 0 (some { gallery := 0, index := 1 }) true
    , .timer 1
    , .wait 10 ]
    freshPage

/-! ## Index normalisation -/

theorem clamp_range (x : ℤ) (n : ℤ) (hn : 1 ≤ n) :
    0 ≤ clamp x 0 (n - 1) ∧ clamp x 0 (n - 1) ≤ n - 1 := by
  unfold clamp
  refine ⟨le_min (le_max_right _ _) (by omega), min_le_right _ _⟩

theorem itemAt_clamp (site : Site) (g : Nat) (x : ℤ)
    (hn : 1 ≤ (site.galleries g).items.length) :
    itemAt site g (some (clamp x 0 (((site.galleries g).items.length : ℤ) - 1)))
      = some { gallery := g
               index := (clamp x 0 (((site.galleries g).items.length : ℤ) - 1)).toNat } := by
  have h := clamp_range x ((site.galleries g).items.length : ℤ) (by exact_mod_cast hn)
  simp only [itemAt]
  rw [if_pos]
  exact ⟨h.1, by omega⟩

theorem mod_with_floor (x : ℤ) (n : ℕ) (hn : 0 < n) :
    mod (some Int.floor) x n = Except.ok (some (x % n)) := by
  have hne : (n : ℤ) ≠ 0 := by omega
  simp only [mod, if_neg hne]
  congr 2
  rw [Int.mod_nat_eq_sub_mul_floor_rat_div]
  simp

theorem showItem_some_completes (site : Site) (g : Nat) (it : ItemRef) (f : Bool) (s : Page) :
    (showItem site g (some it) f s).thrown = none
      ∧ (showItem site g (some it) f s).page.currentItem g = some it := by
  unfold showItem
  by_cases h : s.currentItem g = some it
  · simp [h, done]
  · simp [h, done]

theorem showItemAtIndex_circles_unbound (site : Site) (g : Nat) (i : ℤ) (s : Page)
    (hnav : (site.galleries g).options.navigable = true)
    (hcirc : (site.galleries g).options.circles = true)
    (hmath : site.mathFloor = none) :
    showItemAtIndex site g i s = raise s .referenceError := by
  simp [showItemAtIndex, hnav, hcirc, hmath, mod]

theorem showItemAtIndex_circles_with_floor (site : Site) (g : Nat) (i : ℤ) (s : Page)
    (hnav : (site.galleries g).options.navigable = true)
    (hcirc : (site.galleries g).options.circles = true)
    (hmath : site.mathFloor = some Int.floor)
    (hn : 1 ≤ (site.galleries g).items.length) :
    0 ≤ i % ((site.galleries g).items.length : ℤ)
      ∧ i % ((site.galleries g).items.length : ℤ) < (site.galleries g).items.length
      ∧ showItemAtIndex site g i s
          = showItem site g
              (some { gallery := g, index := (i % ((site.galleries g).items.length : ℤ)).toNat })
              true s := by
  have hpos : (0 : ℤ) < ((site.galleries g).items.length : ℤ) := by exact_mod_cast hn
  have h0 := Int.emod_nonneg i (ne_of_gt hpos)
  have h1 := Int.emod_lt_of_pos i hpos
  refine ⟨h0, h1, ?_⟩
  simp only [showItemAtIndex, hnav, hcirc, hmath, mod_with_floor i _ hn]
  simp [itemAt, h0, h1]

/-- C1: with `circles = true` the index is handed to `mod`, whose body evaluates
the unbound identifier `math`. In a gallery of five items on a page that binds
nothing to `math`, `showItemAtIndex(-1)` throws a ReferenceError before
`showItem` is reached: no item becomes current, the overlay stays closed and
the session history is untouched, where the claim expects the item at index 4
to be shown. -/
theorem showItemAtIndex_circles_throws :
    (showItemAtIndex (sampleSite { circles := true } 5) 0 (-1) freshPage).thrown
        = some JsError.referenceError
      ∧ (showItemAtIndex (sampleSite { circles := true } 5) 0 (-1) freshPage).page.currentItem 0
        = none
      ∧ (showItemAtIndex (sampleSite { circles := true } 5) 0 (-1) freshPage).page.isOpen = false
      ∧ (showItemAtIndex (sampleSite { circles := true } 5) 0 (-1) freshPage).page.entries
        = [HState.null] := by
  refine ⟨rfl, rfl, rfl, rfl⟩

/-- C2: in a navigable gallery with `circles = false` and `n >= 1` items,
`showItemAtIndex(i)` is the call `showItem(items[k])` with
`k = min(max(i, 0), n - 1)`, a position of the gallery; the call completes and
that item is current afterwards; with `n = 5` and `i = -1` the position is 0.
In a gallery with `navigable = false`, `showItemAtIndex(i)` returns the page
unchanged. -/
theorem showItemAtIndex_clamps (site : Site) (g : Nat) (i : ℤ) (s : Page) :
    ((site.galleries g).options.navigable = true →
      (site.galleries g).options.circles = false →
      1 ≤ (site.galleries g).items.length →
      ∃ k : Nat,
        (k : ℤ) = min (max i 0) (((site.galleries g).items.length : ℤ) - 1)
          ∧ k < (site.galleries g).items.length
          ∧ showItemAtIndex site g i s = showItem site g (some { gallery := g, index := k }) true s
          ∧ (showItemAtIndex site g i s).thrown = none
          ∧ (showItemAtIndex site g i s).page.currentItem g = some { gallery := g, index := k })
    ∧ ((site.galleries g).options.navigable = true →
        (site.galleries g).options.circles = false →
        (site.galleries g).items.length = 5 →
        showItemAtIndex site g (-1) s = showItem site g (some { gallery := g, index := 0 }) true s)
    ∧ ((site.galleries g).options.navigable = false →
        showItemAtIndex site g i s = done s) := by
  refine ⟨?_, ?_, ?_⟩
  · intro hnav hcirc hn
    have hr := clamp_range i ((site.galleries g).items.length : ℤ) (by exact_mod_cast hn)
    have hshow : showItemAtIndex site g i s
        = showItem site g (some { gallery := g
                                  index := (clamp i 0
                                    (((site.galleries g).items.length : ℤ) - 1)).toNat }) true s := by
      simp only [showItemAtIndex, hnav, hcirc, itemAt_clamp site g i hn]
      simp
    refine ⟨(clamp i 0 (((site.galleries g).items.length : ℤ) - 1)).toNat, ?_, ?_, hshow, ?_, ?_⟩
    · rw [Int.toNat_of_nonneg hr.1]; rfl
    · have := hr.2; omega
    · rw [hshow]; exact (showItem_some_completes _ _ _ _ _).1
    · rw [hshow]; exact (showItem_some_completes _ _ _ _ _).2
  · intro hnav hcirc hn
    have h1 : 1 ≤ (site.galleries g).items.length := by omega
    simp only [showItemAtIndex, hnav, hcirc, itemAt_clamp site g (-1) h1]
    simp [hn, clamp]
  · intro hnav
    simp [showItemAtIndex, hnav]

/-- The clamped call on the sample page: in a gallery of five items,
`showItemAtIndex(-1)` is `showItem(items[0])` and leaves item 0 current. -/
theorem showItemAtIndex_clamps_witness :
    ((sampleSite {} 5).galleries 0).options.navigable = true
      ∧ ((sampleSite {} 5).galleries 0).options.circles = false
      ∧ ((sampleSite {} 5).galleries 0).items.length = 5
      ∧ showItemAtIndex (sampleSite {} 5) 0 (-1) freshPage
          = showItem (sampleSite {} 5) 0 (some { gallery := 0, index := 0 }) true freshPage
      ∧ (showItemAtIndex (sampleSite {} 5) 0 (-1) freshPage).page.currentItem 0
          = some { gallery := 0, index := 0 } :=
  ⟨rfl, rfl, rfl,
    (showItemAtIndex_clamps (sampleSite {} 5) 0 (-1) freshPage).2.1 rfl rfl rfl, rfl⟩

/-! ## Fitting transform -/

theorem JsNum.div_pos_den (x y : ℚ) (hy : 0 < y) : JsNum.div x y = JsNum.fin (x / y) := by
  simp [JsNum.div, ne_of_gt hy]

theorem min_div_eq (a i : ℚ) (hi : 0 < i) : min a i / i = min (a / i) 1 := by
  rcases le_total a i with h | h
  · rw [min_eq_left h, min_eq_left ((div_le_one hi).2 h)]
  · rw [min_eq_right h, div_self (ne_of_gt hi), min_eq_right ((one_le_div hi).2 h)]

theorem fittingTransformOf_scale (o : Options) (vw vh : ℚ) (img : LightlookImage)
    (hw : 0 < img.width) (hh : 0 < img.height) :
    (fittingTransformOf o vw vh img).scale
      = JsNum.fin (min 1 (min (availableWidth o vw vh / img.width)
                              (availableHeight o vw vh / img.height))) := by
  simp only [fittingTransformOf, JsNum.div_pos_den _ _ hw, JsNum.div_pos_den _ _ hh, JsNum.min,
    min_div_eq _ _ hw, min_div_eq _ _ hh]
  congr 1
  rw [min_comm (_ / img.width) 1, min_comm (_ / img.height) 1]
  exact (inf_inf_distrib_left _ _ _).symm

/-- C3, the claim as stated fails: for an image of width 0 in an 800 x 600
viewport under the default options, the scale is `0 / 0`, which is `NaN`; it is
not `<= 1` and it is no rational number at all. -/
theorem fittingTransform_zero_width_nan :
    (fittingTransformOf {} 800 600 { width := 0, height := 100 }).scale = JsNum.nan
      ∧ ¬ JsNum.le (fittingTransformOf {} 800 600 { width := 0, height := 100 }).scale (JsNum.fin 1)
      ∧ ¬ ∃ q : ℚ, (fittingTransformOf {} 800 600 { width := 0, height := 100 }).scale
            = JsNum.fin q := by
  have h : (fittingTransformOf {} 800 600 { width := 0, height := 100 }).scale = JsNum.nan := by
    simp only [fittingTransformOf, availableWidth, availableHeight, effectivePadding]
    norm_num [JsNum.div, JsNum.min]
  refine ⟨h, ?_, ?_⟩
  · rw [h]; simp [JsNum.le]
  · rw [h]; simp

/-- C3 as amended: for every viewport, every option set and every image of
positive width and height, the scale of the fitting transform is the rational
`min(1, widthRatio, heightRatio)` with
`widthRatio = (viewportWidth - 2 * effectivePadding) / imageWidth` and
`heightRatio = (viewportHeight - 2 * effectivePadding) / imageHeight`, and it
is at most 1. -/
theorem fittingTransform_scale_bound (o : Options) (vw vh : ℚ) (img : LightlookImage)
    (hw : 0 < img.width) (hh : 0 < img.height) :
    (fittingTransformOf o vw vh img).scale
        = JsNum.fin (min 1 (min ((vw - 2 * effectivePadding o vw vh) / img.width)
                                ((vh - 2 * effectivePadding o vw vh) / img.height)))
      ∧ JsNum.le (fittingTransformOf o vw vh img).scale (JsNum.fin 1) := by
  have h := fittingTransformOf_scale o vw vh img hw hh
  simp only [availableWidth, availableHeight] at h
  refine ⟨h, ?_⟩
  rw [h]
  simp [JsNum.le]

/-- The bound on a 1520 x 560 image in an 800 x 600 viewport, where the scale is 1/2. -/
theorem fittingTransform_scale_bound_witness :
    (0 : ℚ) < ({ width := 1520, height := 560 } : LightlookImage).width
      ∧ (0 : ℚ) < ({ width := 1520, height := 560 } : LightlookImage).height
      ∧ (fittingTransformOf {} 800 600 { width := 1520, height := 560 }).scale
        = JsNum.fin (min 1 (min ((800 - 2 * effectivePadding {} 800 600) / 1520)
                                ((600 - 2 * effectivePadding {} 800 600) / 560)))
      ∧ JsNum.le (fittingTransformOf {} 800 600 { width := 1520, height := 560 }).scale
          (JsNum.fin 1) :=
  ⟨by norm_num, by norm_num,
    fittingTransform_scale_bound {} 800 600 { width := 1520, height := 560 }
      (by norm_num) (by norm_num)⟩

/-! ## Padding gate -/

/-- C4, the claim as stated fails: under the default options a 720 x 520
viewport does not exceed `paddingMinWidth` x `paddingMinHeight`, yet the
effective padding is the configured 20, not 0. -/
theorem effectivePadding_at_minimum :
    effectivePadding {} 720 520 = 20
      ∧ ¬ ((720 : ℚ) > ({} : Options).paddingMinWidth ∧ (520 : ℚ) > ({} : Options).paddingMinHeight)
      ∧ availableWidth {} 720 520 = 680 ∧ availableHeight {} 720 520 = 480 := by
  simp only [availableWidth, availableHeight, effectivePadding]
  norm_num

/-- C4 as amended: the effective padding is the configured padding when the
viewport is at least `paddingMinWidth` wide and at least `paddingMinHeight`
high, and 0 when it is narrower or lower; under the default options (720, 520,
20) a 700 x 600 viewport has effective padding 0 and available box 700 x 600,
an 800 x 600 viewport has effective padding 20 and available box 760 x 560. -/
theorem effectivePadding_gate (o : Options) (vw vh : ℚ) :
    (o.paddingMinWidth ≤ vw → o.paddingMinHeight ≤ vh → effectivePadding o vw vh = o.padding)
      ∧ (vw < o.paddingMinWidth ∨ vh < o.paddingMinHeight → effectivePadding o vw vh = 0)
      ∧ availableWidth o vw vh = vw - 2 * effectivePadding o vw vh
      ∧ availableHeight o vw vh = vh - 2 * effectivePadding o vw vh
      ∧ (effectivePadding {} 700 600 = 0
          ∧ availableWidth {} 700 600 = 700 ∧ availableHeight {} 700 600 = 600)
      ∧ (effectivePadding {} 800 600 = 20
          ∧ availableWidth {} 800 600 = 760 ∧ availableHeight {} 800 600 = 560) := by
  refine ⟨?_, ?_, rfl, rfl, ?_, ?_⟩
  · intro h1 h2
    simp [effectivePadding, h1, h2]
  · intro h
    have : ¬ (vw ≥ o.paddingMinWidth ∧ vh ≥ o.paddingMinHeight) := by
      rintro ⟨h1, h2⟩
      rcases h with h | h
      · exact absurd h1 (not_le.2 h)
      · exact absurd h2 (not_le.2 h)
    simp only [effectivePadding, if_neg this]
  · simp only [availableWidth, availableHeight, effectivePadding]; norm_num
  · simp only [availableWidth, availableHeight, effectivePadding]; norm_num
/-! ## Backdrop opacity -/

theorem swipeCloseBoxOpacity_eq (a : ℚ) :
    swipeCloseBoxOpacity a = JsNum.fin (min (max (1 - (a - 32) / 196) 0) 1)
      ∨ (a ≤ 32 ∧ swipeCloseBoxOpacity a = JsNum.fin 1) := by
  by_cases h : a > 32
  · left
    simp only [swipeCloseBoxOpacity, SWIPE_CLOSE_OPACITY_THRESHOLD, SWIPE_CLOSE_OPACITY_DISTANCE,
      if_pos h, cmap, map, clampNum]
    norm_num [JsNum.div, JsNum.addFin, JsNum.max, JsNum.min]
    ring_nf
  · right
    exact ⟨not_lt.1 h, by simp [swipeCloseBoxOpacity, SWIPE_CLOSE_OPACITY_THRESHOLD, h]⟩

/-- The backdrop opacity as a rational: `clamp(1 - (a - 32) / 196, 0, 1)`. -/
theorem swipeCloseBoxOpacity_fin (a : ℚ) :
    swipeCloseBoxOpacity a = JsNum.fin (min (max (1 - (a - 32) / 196) 0) 1) := by
  rcases swipeCloseBoxOpacity_eq a with h | ⟨h32, h⟩
  · exact h
  · rw [h]
    congr 1
    have : (1 : ℚ) ≤ 1 - (a - 32) / 196 := by linarith [div_nonpos_of_nonpos_of_nonneg (sub_nonpos.2 h32) (by norm_num : (0:ℚ) ≤ 196)]
    rw [max_eq_left (by linarith), min_eq_right this]
theorem touchmove_swipeClose_opacity (site : Site) (s : Page) (ts : TouchSession)
    (changedTouches : List Touch) (touch : Touch)
    (hs : s.touchsession = some ts) (ht : ts.type = some SessionType.SWIPE_CLOSE)
    (hfind : changedTouches.find? (fun x => x.identifier = ts.initTouch.identifier) = some touch)
    (hok : (touchmove site changedTouches s).thrown = none) :
    (touchmove site changedTouches s).page.boxOpacity
      = some (swipeCloseBoxOpacity |touch.clientY - ts.initTouch.clientY|) := by
  unfold touchmove at hok ⊢
  simp only [hs, hfind, ht] at hok ⊢
  generalize activeFittingTransform site _ = r at hok ⊢
  cases r with
  | error e => simp [raise] at hok
  | ok t => simp [done, applyTo]

/-- C9: the opacity written to the backdrop by a swipe-close move is
`swipeCloseBoxOpacity |dy|`, and as a function of `a = |dy| >= 0` in exact
arithmetic it is 1 for `a <= 32`, equals `1 - (a - 32) / 196` for
`32 < a <= 228`, is 0 at `a = 228` and for every `a >= 228`, is a rational in
`[0, 1]`, and is non-increasing in `a`. -/
theorem swipeCloseBoxOpacity_profile :
    (∀ (site : Site) (s : Page) (ts : TouchSession) (changedTouches : List Touch) (touch : Touch),
        s.touchsession = some ts → ts.type = some SessionType.SWIPE_CLOSE →
        changedTouches.find? (fun x => x.identifier = ts.initTouch.identifier) = some touch →
        (touchmove site changedTouches s).thrown = none →
        (touchmove site changedTouches s).page.boxOpacity
          = some (swipeCloseBoxOpacity |touch.clientY - ts.initTouch.clientY|))
      ∧ (∀ a : ℚ, 0 ≤ a → a ≤ 32 → swipeCloseBoxOpacity a = JsNum.fin 1)
      ∧ (∀ a : ℚ, 32 < a → a ≤ 228 → swipeCloseBoxOpacity a = JsNum.fin (1 - (a - 32) / 196))
      ∧ swipeCloseBoxOpacity 228 = JsNum.fin 0
      ∧ (∀ a : ℚ, 228 ≤ a → swipeCloseBoxOpacity a = JsNum.fin 0)
      ∧ (∀ a : ℚ, 0 ≤ a → ∃ q : ℚ, swipeCloseBoxOpacity a = JsNum.fin q ∧ 0 ≤ q ∧ q ≤ 1)
      ∧ (∀ a b : ℚ, 0 ≤ a → a ≤ b →
          JsNum.le (swipeCloseBoxOpacity b) (swipeCloseBoxOpacity a)) := by
  have hzero : ∀ a : ℚ, 228 ≤ a → swipeCloseBoxOpacity a = JsNum.fin 0 := by
    intro a h
    rw [swipeCloseBoxOpacity_fin]
    congr 1
    have : 1 - (a - 32) / 196 ≤ 0 := by
      rw [sub_nonpos, le_div_iff₀ (by norm_num)]; linarith
    rw [max_eq_right this, min_eq_left (by norm_num)]
  refine ⟨touchmove_swipeClose_opacity, ?_, ?_, hzero 228 le_rfl, hzero, ?_, ?_⟩
  · intro a _ h
    simp [swipeCloseBoxOpacity, SWIPE_CLOSE_OPACITY_THRESHOLD, not_lt.2 h]
  · intro a h1 h2
    rw [swipeCloseBoxOpacity_fin]
    congr 1
    have hlo : (0 : ℚ) ≤ 1 - (a - 32) / 196 := by
      rw [sub_nonneg, div_le_iff₀ (by norm_num)]; linarith
    have hhi : 1 - (a - 32) / 196 ≤ 1 := by
      have : (0 : ℚ) ≤ (a - 32) / 196 := div_nonneg (by linarith) (by norm_num)
      linarith
    rw [max_eq_left hlo, min_eq_left hhi]
  · intro a _
    exact ⟨_, swipeCloseBoxOpacity_fin a, le_min (le_max_right _ _) (by norm_num),
      min_le_right _ _⟩
  · intro a b _ hab
    rw [swipeCloseBoxOpacity_fin, swipeCloseBoxOpacity_fin]
    show min (max (1 - (b - 32) / 196) 0) 1 ≤ min (max (1 - (a - 32) / 196) 0) 1
    have : 1 - (b - 32) / 196 ≤ 1 - (a - 32) / 196 := by
      have : (a - 32) / 196 ≤ (b - 32) / 196 :=
        div_le_div_of_nonneg_right (by linarith) (by norm_num)
      linarith
    exact min_le_min (max_le_max this le_rfl) le_rfl

/-! ## Closing -/

theorem performClose_of_closed (site : Site) (g : Nat) (f : Bool) (s : Page)
    (h : s.isOpen = false) : performClose site g f s = done s := by
  simp [performClose, h]

theorem performClose_of_open (site : Site) (g : Nat) (f : Bool) (s : Page) (cur : ItemRef)
    (h : s.isOpen = true) (hc : s.currentItem g = some cur) :
    (performClose site g f s).thrown = none ∧ (performClose site g f s).page.isOpen = false := by
  simp [performClose, h, hc, done, clearTimeout]

theorem performClose_of_open_no_item (site : Site) (g : Nat) (f : Bool) (s : Page)
    (h : s.isOpen = true) (hc : s.currentItem g = none) :
    performClose site g f s
      = raise { clearTimeout s.showTimeout s with
                openHandlers := Function.update s.openHandlers g false
                wrapperOpen := false } JsError.typeError := by
  simp [performClose, h, hc, clearTimeout]

/-- C10: `performClose` is idempotent. From every page, a second `performClose`
right after the first leaves exactly the page the first one left, pending
timers included; after a first call that completed, and on any page whose
overlay is closed, the call returns at once with the page unchanged, so it
schedules no timer, starts no transition, removes no handler and causes no
focus call. -/
theorem performClose_idempotent (site : Site) (g : Nat) (f1 f2 : Bool) (s : Page) :
    (performClose site g f2 (performClose site g f1 s).page).page = (performClose site g f1 s).page
      ∧ (performClose site g f2 (performClose site g f1 s).page).page.timers
          = (performClose site g f1 s).page.timers
      ∧ ((performClose site g f1 s).thrown = none →
          performClose site g f2 (performClose site g f1 s).page
            = done (performClose site g f1 s).page)
      ∧ (s.isOpen = false → performClose site g f1 s = done s) := by
  have key : (performClose site g f2 (performClose site g f1 s).page).page
      = (performClose site g f1 s).page
      ∧ ((performClose site g f1 s).thrown = none →
          performClose site g f2 (performClose site g f1 s).page
            = done (performClose site g f1 s).page) := by
    cases hopen : s.isOpen with
    | false =>
      rw [performClose_of_closed site g f1 s hopen]
      simp [done, performClose_of_closed site g f2 s hopen]
    | true =>
      cases hc : s.currentItem g with
      | some cur =>
        have h1 := performClose_of_open site g f1 s cur hopen hc
        rw [performClose_of_closed site g f2 _ h1.2]
        simp [done]
      | none =>
        rw [performClose_of_open_no_item site g f1 s hopen hc]
        refine ⟨?_, by simp [raise]⟩
        simp only [raise]
        rw [performClose_of_open_no_item site g f2 _ (by simp [clearTimeout, hopen])
          (by simp [clearTimeout, hc])]
        simp [raise, clearTimeout, List.filter_filter]
  exact ⟨key.1, by rw [key.1], key.2, performClose_of_closed site g f1 s⟩

/-! ## Swipe to close -/

theorem close_pendingBack (site : Site) (g : Nat) (f : Bool) (s : Page) (cur : ItemRef)
    (hc : s.currentItem g = some cur) :
    (close site g f s).thrown = none
      ∧ (close site g f s).page.pendingBack = s.pendingBack + 1
      ∧ (close site g f s).page.isOpen = false
      ∧ (close site g f s).page.isBlocking = true := by
  cases hopen : s.isOpen <;>
    simp [close, performClose, hopen, hc, done, Outcome.andThen, blockingBack, setTimeout,
      clearTimeout, transition, requestDOMUpdate]

/-- C8: at touch-end of a swipe-close session while the active gallery has a
current item, the listener restores the opacity styling and then: if the last
recorded `|dy|` is strictly greater than 56 it calls `close()` on the active
gallery (one back-navigation is requested, the overlay is no longer open);
otherwise it calls nothing on the gallery (`isOpen` and the history requests
are as before) and schedules the transition of the image to the current item's
fitting transform over the show duration. So `close` is invoked exactly when
`|dy| > 56`; and in both cases the listener completes and the session is
discarded. -/
theorem touchend_swipeClose (site : Site) (s : Page) (ts : TouchSession) (a : Nat)
    (cur : ItemRef)
    (hs : s.touchsession = some ts) (ht : ts.type = some SessionType.SWIPE_CLOSE)
    (ha : s.activeLightlook = some a) (hc : s.currentItem a = some cur) :
    (touchend site s).thrown = none
      ∧ (touchend site s).page.touchsession = none
      ∧ (56 < |ts.dy| →
          (touchend site s).page
              = { (close site a false
                    { s with closeButtonOpacity := none, boxOpacity := none
                             boxUsesTransition := true }).page with touchsession := none }
            ∧ (touchend site s).page.isOpen = false
            ∧ (touchend site s).page.pendingBack = s.pendingBack + 1)
      ∧ (|ts.dy| ≤ 56 →
          (touchend site s).page
              = { transition none
                    (fittingTransformOf (site.galleries a).options s.innerWidth s.innerHeight
                      (itemData site cur).image)
                    SHOW_ANIMATION_DURATION
                    { s with closeButtonOpacity := none, boxOpacity := none
                             boxUsesTransition := true } with touchsession := none }
            ∧ (touchend site s).page.isOpen = s.isOpen
            ∧ (touchend site s).page.pendingBack = s.pendingBack
            ∧ (touchend site s).page.timers
                = s.timers ++ [{ id := s.nextTimerId, due := s.now + DOM_UPDATE_DELAY
                                 callback := Callback.transitionStart
                                   (fittingTransformOf (site.galleries a).options s.innerWidth
                                     s.innerHeight (itemData site cur).image)
                                   SHOW_ANIMATION_DURATION }])
      ∧ ((touchend site s).page.pendingBack = s.pendingBack + 1 ↔ 56 < |ts.dy|) := by
  have hcl := close_pendingBack site a false
    { s with closeButtonOpacity := none, boxOpacity := none, boxUsesTransition := true } cur hc
  by_cases hdy : 56 < |ts.dy|
  · have heq : touchend site s
        = (close site a false
            { s with closeButtonOpacity := none, boxOpacity := none
                     boxUsesTransition := true }).andThen
            fun s => done { s with touchsession := none } := by
      simp [touchend, hs, ht, ha, SWIPE_CLOSE_THRESHOLD, hdy]
    rw [heq]
    simp only [Outcome.andThen, hcl.1, done]
    refine ⟨trivial, trivial, fun _ => ⟨trivial, hcl.2.2.1, hcl.2.1⟩,
      fun h => absurd hdy (not_lt.2 h), fun _ => hdy, fun _ => hcl.2.1⟩
  · have hle : |ts.dy| ≤ 56 := not_lt.1 hdy
    have heq : touchend site s
        = done { transition none
                    (fittingTransformOf (site.galleries a).options s.innerWidth s.innerHeight
                      (itemData site cur).image)
                    SHOW_ANIMATION_DURATION
                    { s with closeButtonOpacity := none, boxOpacity := none
                             boxUsesTransition := true } with touchsession := none } := by
      simp [touchend, hs, ht, ha, hc, SWIPE_CLOSE_THRESHOLD, hdy, activeFittingTransform,
        fittingTransform, Outcome.andThen, done]
    rw [heq]
    refine ⟨rfl, rfl, fun h => absurd h hdy, fun _ => ⟨rfl, rfl, rfl, rfl⟩, ?_⟩
    simp [done, transition, requestDOMUpdate, setTimeout, hdy]
/-- The sample swipe sessions: a final `dy` of 57 closes, of 56 and of 55 snaps back. -/
theorem touchend_swipeClose_witness :
    ((swipePage 57).touchsession = some (swipeSession 57)
      ∧ (swipeSession 57).type = some SessionType.SWIPE_CLOSE
      ∧ (swipePage 57).activeLightlook = some 0
      ∧ (swipePage 57).currentItem 0 = some { gallery := 0, index := 1 })
      ∧ (touchend (sampleSite {} 3) (swipePage 57)).thrown = none
      ∧ (touchend (sampleSite {} 3) (swipePage 57)).page.touchsession = none
      ∧ (touchend (sampleSite {} 3) (swipePage 57)).page.isOpen = false
      ∧ (touchend (sampleSite {} 3) (swipePage 57)).page.pendingBack = 1
      ∧ (touchend (sampleSite {} 3) (swipePage 56)).page.touchsession = none
      ∧ (touchend (sampleSite {} 3) (swipePage 56)).page.isOpen = true
      ∧ (touchend (sampleSite {} 3) (swipePage 56)).page.pendingBack = 0
      ∧ (touchend (sampleSite {} 3) (swipePage 55)).page.touchsession = none
      ∧ (touchend (sampleSite {} 3) (swipePage 55)).page.isOpen = true
      ∧ (touchend (sampleSite {} 3) (swipePage 55)).page.pendingBack = 0 := by
  have h (dy : ℚ) := touchend_swipeClose (sampleSite {} 3) (swipePage dy) (swipeSession dy) 0
      { gallery := 0, index := 1 } rfl rfl rfl rfl
  have e57 : (56 : ℚ) < |(swipeSession 57).dy| := by norm_num [swipeSession]
  have e56 : |(swipeSession 56).dy| ≤ (56 : ℚ) := by norm_num [swipeSession]
  have e55 : |(swipeSession 55).dy| ≤ (56 : ℚ) := by norm_num [swipeSession]
  refine ⟨⟨rfl, rfl, rfl, rfl⟩, (h 57).1, (h 57).2.1, ((h 57).2.2.1 e57).2.1,
    ((h 57).2.2.1 e57).2.2, (h 56).2.1, ?_, ?_, (h 55).2.1, ?_, ?_⟩
  · rw [((h 56).2.2.2.1 e56).2.1]; rfl
  · rw [((h 56).2.2.2.1 e56).2.2.1]; rfl
  · rw [((h 55).2.2.2.1 e55).2.1]; rfl
  · rw [((h 55).2.2.2.1 e55).2.2.1]; rfl

/-! ## Closing from the keyboard -/

theorem handleKeydown_history (site : Site) (g : Nat) (key : Nat) (s : Page) :
    (handleKeydown site g key s).page.pendingBack = s.pendingBack
      ∧ (handleKeydown site g key s).page.isBlocking = s.isBlocking
      ∧ (handleKeydown site g key s).page.entries = s.entries
      ∧ (handleKeydown site g key s).page.cursor = s.cursor := by
  unfold handleKeydown
  by_cases hk : key = 13 ∨ key = 27 ∨ key = 32
  · rw [if_pos hk]
    cases hl : s.isLongKeyPress
    · cases ho : s.isOpen
      · simp [performClose, ho, done, Outcome.andThen]
      · cases hc : s.currentItem g <;>
          simp [performClose, ho, hc, done, raise, Outcome.andThen, clearTimeout, transition,
            requestDOMUpdate, setTimeout]
    · simp [done]
  · rw [if_neg hk]; simp [done]

/-- C7: on the sample page with the overlay fully open on item 1 (open handlers
installed, long-press latch clear, the entry pushed at open on top of the
history), a key-down of Escape, Enter or Space runs `performClose` only: the
overlay closes, but no back-navigation is requested and the bridge is not
blocking, so the pushed entry remains the top of the stack, also after the
platform has carried out every pending traversal. The click path on the same
page does call `close`: one back-navigation is requested, and once it is
carried out the pushed entry is no longer the top. -/
theorem keydown_close_skips_history :
    (openPage.isOpen = true ∧ openPage.openHandlers 0 = true ∧ openPage.isLongKeyPress = false
        ∧ historyState openPage = HState.lightlookIndex 1)
      ∧ (∀ key, key = 27 ∨ key = 13 ∨ key = 32 →
          (perform (sampleSite {} 3) (.keydown 0 key) openPage).thrown = none
            ∧ (perform (sampleSite {} 3) (.keydown 0 key) openPage).page.isOpen = false
            ∧ (perform (sampleSite {} 3) (.keydown 0 key) openPage).page.pendingBack = 0
            ∧ (perform (sampleSite {} 3) (.keydown 0 key) openPage).page.isBlocking = false
            ∧ historyState (perform (sampleSite {} 3) (.keydown 0 key) openPage).page
                = HState.lightlookIndex 1
            ∧ historyState
                (run (sampleSite {} 3) [.keydown 0 key, .backArrives] openPage)
                = HState.lightlookIndex 1)
      ∧ ((perform (sampleSite {} 3) (.overlayClick 0) openPage).page.isOpen = false
          ∧ (perform (sampleSite {} 3) (.overlayClick 0) openPage).page.pendingBack = 1
          ∧ (perform (sampleSite {} 3) (.overlayClick 0) openPage).page.isBlocking = true
          ∧ historyState (run (sampleSite {} 3) [.overlayClick 0, .backArrives] openPage)
              = HState.null) := by
  refine ⟨⟨rfl, rfl, rfl, rfl⟩, ?_, ⟨rfl, rfl, rfl, rfl⟩⟩
  rintro key (rfl | rfl | rfl) <;> exact ⟨rfl, rfl, rfl, rfl, rfl, rfl⟩

/-! ## The page `showItem` leaves, field by field -/

/-- The page after a `showItem` that is not a no-op, each field written out. -/
theorem showItem_eq (site : Site) (g : Nat) (it : ItemRef) (f : Bool) (s : Page)
    (h : s.currentItem g ≠ some it) :
    showItem site g (some it) f s
      = done
        { s with
          activeLightlook := some g
          itemListeners :=
            match s.currentItem g with
            | some cur => Function.update (Function.update s.itemListeners it false) cur true
            | none => Function.update s.itemListeners it false
          nodeVisible :=
            if s.isOpen then
              Function.update
                (match s.currentItem g with
                  | some cur => Function.update s.nodeVisible cur true
                  | none => s.nodeVisible) it false
            else
              match s.currentItem g with
              | some cur => Function.update s.nodeVisible cur true
              | none => s.nodeVisible
          timers :=
            if s.isOpen then s.timers.filter (fun t => some t.id ≠ s.hideTimeout)
            else s.timers.filter (fun t => some t.id ≠ s.hideTimeout)
              ++ [{ id := s.nextTimerId, due := s.now + DOM_UPDATE_DELAY
                    callback := Callback.showUpdate g it
                      (coveringTransform (itemData site it).nodeRect (itemData site it).image
                        (1 / 2) (1 / 2))
                      (fittingTransformOf (site.galleries g).options s.innerWidth s.innerHeight
                        (itemData site it).image) }]
          nextTimerId := if s.isOpen then s.nextTimerId else s.nextTimerId + 1
          imageTransform :=
            if s.isOpen then
              some (fittingTransformOf (site.galleries g).options s.innerWidth s.innerHeight
                (itemData site it).image)
            else
              some (coveringTransform (itemData site it).nodeRect (itemData site it).image
                (1 / 2) (1 / 2))
          wrapperHidden := if s.isOpen then s.wrapperHidden else false
          entries :=
            if isHistoryStateWithLightlookIndex (historyState s) then
              s.entries.set s.cursor (HState.lightlookIndex (indexOf site g (some it)))
            else s.entries.take (s.cursor + 1) ++ [HState.lightlookIndex (indexOf site g (some it))]
          cursor :=
            if isHistoryStateWithLightlookIndex (historyState s) then s.cursor
            else (s.entries.take (s.cursor + 1)).length
          imageSource := some it
          imageOffset := (0, 0)
          focusCalls := if f then s.focusCalls ++ [FocusTarget.wrapper] else s.focusCalls
          currentItem := Function.update s.currentItem g (some it)
          isScrollClosing := false
          isOpen := true } := by
  cases hc : s.currentItem g with
  | none =>
    cases ho : s.isOpen <;> cases f <;>
      cases hh : isHistoryStateWithLightlookIndex (s.entries[s.cursor]?.getD HState.null) <;>
      simp [showItem, hc, ho, hh, done, disableEventListeners, enableEventListeners, setVisible,
        clearTimeout, applyTo, requestDOMUpdate, setTimeout, historyState, pushState,
        replaceState]
  | some cur =>
    have hne : cur ≠ it := fun e => h (by rw [hc, e])
    cases ho : s.isOpen <;> cases f <;>
      cases hh : isHistoryStateWithLightlookIndex (s.entries[s.cursor]?.getD HState.null) <;>
      simp [showItem, hc, hne, ho, hh, done, disableEventListeners, enableEventListeners,
        setVisible, clearTimeout, applyTo, requestDOMUpdate, setTimeout, historyState, pushState,
        replaceState]

theorem showItem_same (site : Site) (g : Nat) (it : ItemRef) (f : Bool) (s : Page)
    (h : s.currentItem g = some it) : showItem site g (some it) f s = done s := by
  simp [showItem, h]
/-! ## One current item per gallery -/

theorem update_of_eq {α : Type} (c : Nat → α) (g : Nat) (v : α) (h : c g = v) :
    Function.update c g v = c := by
  rw [← h]; exact Function.update_eq_self g c

theorem showItem_currentItem (site : Site) (g : Nat) (it : ItemRef) (f : Bool) (s : Page) :
    (showItem site g (some it) f s).page.currentItem
      = Function.update s.currentItem g (some it) := by
  by_cases h : s.currentItem g = some it
  · rw [showItem_same site g it f s h, update_of_eq _ _ _ h]; rfl
  · rw [showItem_eq site g it f s h]; rfl

theorem showItem_itemListeners (site : Site) (g : Nat) (it : ItemRef) (f : Bool) (s : Page) :
    (showItem site g (some it) f s).page.itemListeners
      = if s.currentItem g = some it then s.itemListeners
        else match s.currentItem g with
          | some cur => Function.update (Function.update s.itemListeners it false) cur true
          | none => Function.update s.itemListeners it false := by
  by_cases h : s.currentItem g = some it
  · rw [showItem_same site g it f s h, if_pos h]; rfl
  · rw [showItem_eq site g it f s h, if_neg h]; rfl

theorem showItem_listenersMatch (site : Site) (g : Nat) (it : ItemRef) (f : Bool) (s : Page)
    (hg : it.gallery = g) (h : ListenersMatch s) :
    ListenersMatch (showItem site g (some it) f s).page := by
  obtain ⟨h1, h2⟩ := h
  unfold ListenersMatch
  rw [showItem_currentItem, showItem_itemListeners]
  by_cases hcur : s.currentItem g = some it
  · rw [if_pos hcur, update_of_eq _ _ _ hcur]
    exact ⟨h1, h2⟩
  · rw [if_neg hcur]
    constructor
    · intro x
      by_cases hxg : x.gallery = g
      · rw [hxg, Function.update_same]
        by_cases hxi : x = it
        · subst hxi
          cases hc : s.currentItem g with
          | none => simp
          | some cur =>
            have : x ≠ cur := fun e => hcur (by rw [hc, e])
            simp [Function.update_noteq this]
        · have hne : some it ≠ some x := fun e => hxi (Option.some.inj e).symm
          have hx := h1 x
          rw [hxg] at hx
          cases hc : s.currentItem g with
          | none =>
            rw [hc] at hx
            simp [Function.update_noteq hxi, hx, hne]
          | some cur =>
            rw [hc] at hx
            by_cases hxc : x = cur
            · subst hxc; simp [hne]
            · simp [Function.update_noteq hxc, Function.update_noteq hxi, hne]
              exact hx.2 (fun e => hxc (Option.some.inj e).symm)
      · rw [Function.update_noteq hxg]
        have hxi : x ≠ it := fun e => hxg (e ▸ hg)
        cases hc : s.currentItem g with
        | none => simpa [Function.update_noteq hxi] using h1 x
        | some cur =>
          have hxc : x ≠ cur := fun e => hxg (e ▸ h2 g cur hc)
          simpa [Function.update_noteq hxc, Function.update_noteq hxi] using h1 x
    · intro g' x hx
      by_cases hgg : g' = g
      · subst hgg
        rw [Function.update_same] at hx
        exact (Option.some.inj hx) ▸ hg
      · rw [Function.update_noteq hgg] at hx
        exact h2 g' x hx

theorem showItems_listenersMatch (site : Site) (calls : List (Nat × ItemRef × Bool)) :
    ∀ s : Page, (∀ c ∈ calls, c.2.1.gallery = c.1) → ListenersMatch s →
      ListenersMatch (showItems site calls s) := by
  induction calls with
  | nil => intro s _ h; exact h
  | cons c cs ih =>
    intro s hc h
    simp only [showItems, List.foldl_cons]
    exact ih _ (fun c' hc' => hc c' (List.mem_cons_of_mem _ hc'))
      (showItem_listenersMatch site c.1 c.2.1 c.2.2 s (hc c (List.mem_cons_self _ _)) h)

/-- C5, the claim as stated fails: `currentItem` is a field of each gallery
instance, and `showItem` on one gallery never touches another gallery's field.
After `showItem` of item 0 on gallery 0 and then of item 0 on gallery 1, both
galleries record a current item: two distinct items are current at once. -/
theorem two_galleries_two_current_items :
    (showItems (sampleSite {} 3)
        [(0, { gallery := 0, index := 0 }, true), (1, { gallery := 1, index := 0 }, true)]
        freshPage).currentItem 0 = some { gallery := 0, index := 0 }
      ∧ (showItems (sampleSite {} 3)
        [(0, { gallery := 0, index := 0 }, true), (1, { gallery := 1, index := 0 }, true)]
        freshPage).currentItem 1 = some { gallery := 1, index := 0 }
      ∧ ({ gallery := 0, index := 0 } : ItemRef) ≠ { gallery := 1, index := 0 } := by
  refine ⟨rfl, rfl, by decide⟩

/-- C5 as amended: after any finite sequence of `showItem` calls, each issued on
a gallery with one of that gallery's own items, starting from a page where every
item's handlers are enabled and no item is current: every gallery records at most
one current item, which is one of its own items (so there is at most one current
item per gallery, not per page), and an item's own handlers are enabled if and
only if it is not the current item of its gallery. -/
theorem showItems_one_current_per_gallery (site : Site) (calls : List (Nat × ItemRef × Bool))
    (s0 : Page) (hl : ∀ it, s0.itemListeners it = true) (hc : ∀ g, s0.currentItem g = none)
    (hown : ∀ c ∈ calls, c.2.1.gallery = c.1) :
    (∀ (g : Nat) (a b : ItemRef), (showItems site calls s0).currentItem g = some a →
        (showItems site calls s0).currentItem g = some b → a = b)
      ∧ (∀ (g : Nat) (it : ItemRef), (showItems site calls s0).currentItem g = some it →
          it.gallery = g)
      ∧ (∀ it : ItemRef, (showItems site calls s0).itemListeners it = true
          ↔ (showItems site calls s0).currentItem it.gallery ≠ some it) := by
  have h0 : ListenersMatch s0 :=
    ⟨fun it => by simp [hl it, hc it.gallery], fun g it h => by simp [hc g] at h⟩
  have h := showItems_listenersMatch site calls s0 hown h0
  exact ⟨fun g a b ha hb => Option.some.inj (ha.symm.trans hb), h.2, h.1⟩

/-- The amended invariant after three calls on two galleries of the sample page. -/
theorem showItems_one_current_per_gallery_witness :
    ((∀ it, freshPage.itemListeners it = true) ∧ (∀ g, freshPage.currentItem g = none)
      ∧ (∀ c ∈ [((0 : Nat), ({ gallery := 0, index := 0 } : ItemRef), true),
                (1, { gallery := 1, index := 0 }, true),
                (0, { gallery := 0, index := 2 }, false)], c.2.1.gallery = c.1))
      ∧ (∀ it : ItemRef,
          (showItems (sampleSite {} 3)
            [(0, { gallery := 0, index := 0 }, true), (1, { gallery := 1, index := 0 }, true),
             (0, { gallery := 0, index := 2 }, false)] freshPage).itemListeners it = true
          ↔ (showItems (sampleSite {} 3)
            [(0, { gallery := 0, index := 0 }, true), (1, { gallery := 1, index := 0 }, true),
             (0, { gallery := 0, index := 2 }, false)] freshPage).currentItem it.gallery
              ≠ some it) :=
  ⟨⟨fun _ => rfl, fun _ => rfl, by decide⟩,
    (showItems_one_current_per_gallery (sampleSite {} 3)
      [(0, { gallery := 0, index := 0 }, true), (1, { gallery := 1, index := 0 }, true),
       (0, { gallery := 0, index := 2 }, false)] freshPage
      (fun _ => rfl) (fun _ => rfl) (by decide)).2.2⟩

/-! ## History stays in step with the current item -/

/-- Frame rule: `HistorySync` only reads the history, `isOpen`, the current item
of `g0`, the hide timers, `hideTimeout` and `activeLightlook`. -/
theorem HistorySync.frame {site : Site} {g0 : Nat} {s s' : Page} (h : HistorySync site g0 s)
    (he : s'.entries = s.entries) (hcu : s'.cursor = s.cursor) (ho : s'.isOpen = s.isOpen)
    (hc : s'.currentItem g0 = s.currentItem g0)
    (ht : ∀ t ∈ s'.timers, ∀ (g : Nat) (f : Bool), t.callback = Callback.hideDone g f →
      t ∈ s.timers)
    (hh : s'.hideTimeout = s.hideTimeout)
    (ha : s'.activeLightlook = s.activeLightlook ∨ s'.activeLightlook = some g0) :
    HistorySync site g0 s' := by
  obtain ⟨h1, h2, h3, h4, h5⟩ := h
  refine ⟨by rw [he, hcu]; exact h1, by rw [he]; exact h2, ?_, ?_, ?_⟩
  · rw [he, ho, hc]; exact h3
  · intro t ht' g f hcb
    rw [ho, hh]
    exact h4 t (ht t ht' g f hcb) g f hcb
  · intro a haa
    rcases ha with ha | ha
    · exact h5 a (ha ▸ haa)
    · rw [ha] at haa; exact (Option.some.inj haa).symm

theorem HistorySync.setTimeout {site : Site} {g0 : Nat} {s : Page} (h : HistorySync site g0 s)
    (cb : Callback) (d : Nat) (hcb : ∀ (g : Nat) (f : Bool), cb ≠ Callback.hideDone g f) :
    HistorySync site g0 (setTimeout cb d s) := by
  refine h.frame rfl rfl rfl rfl ?_ rfl (Or.inl rfl)
  intro t ht g f hc
  simp only [Lightlook.setTimeout, List.mem_append, List.mem_singleton] at ht
  rcases ht with ht | ht
  · exact ht
  · subst ht; exact absurd hc (hcb g f)

theorem HistorySync.clearTimeout {site : Site} {g0 : Nat} {s : Page} (h : HistorySync site g0 s)
    (i : Option Nat) : HistorySync site g0 (clearTimeout i s) := by
  refine h.frame rfl rfl rfl rfl ?_ rfl (Or.inl rfl)
  intro t ht g f _
  simp only [Lightlook.clearTimeout] at ht
  exact List.mem_of_mem_filter ht

theorem HistorySync.transition {site : Site} {g0 : Nat} {s : Page} (h : HistorySync site g0 s)
    (a : Option LightlookTransform) (b : LightlookTransform) (d : Nat) :
    HistorySync site g0 (transition a b d s) := by
  unfold Lightlook.transition requestDOMUpdate
  refine HistorySync.setTimeout ?_ _ _ (fun g f => by simp)
  cases a with
  | none => exact h
  | some t => exact h.frame rfl rfl rfl rfl (fun t ht _ _ _ => ht) rfl (Or.inl rfl)

theorem HistorySync.blockingBack {site : Site} {g0 : Nat} {s : Page} (h : HistorySync site g0 s) :
    HistorySync site g0 (blockingBack s) := by
  unfold Lightlook.blockingBack
  refine HistorySync.setTimeout ?_ _ _ (fun g f => by simp)
  exact h.frame rfl rfl rfl rfl (fun t ht _ _ _ => ht) rfl (Or.inl rfl)
theorem historyState_index_iff (s : Page) :
    isHistoryStateWithLightlookIndex (historyState s) = true
      ↔ ∃ j : ℤ, s.entries[s.cursor]? = some (HState.lightlookIndex j) := by
  unfold historyState
  rw [List.getD_eq_getElem?_getD]
  cases h : s.entries[s.cursor]? with
  | none => simp [isHistoryStateWithLightlookIndex]
  | some st => cases st <;> simp [isHistoryStateWithLightlookIndex]

theorem getLast?_set_last {α : Type} (l : List α) (k : Nat) (x : α) (hk : k + 1 = l.length) :
    (l.set k x).getLast? = some x := by
  rw [List.getLast?_eq_getElem?, List.length_set, ← hk]
  simp [List.getElem?_set, ← hk]

theorem showItem_no_hide_timer {site : Site} {g0 : Nat} {s : Page} (h : HistorySync site g0 s)
    (extra : List Timer) (hextra : ∀ t ∈ extra, ∀ (g : Nat) (f : Bool),
      t.callback ≠ Callback.hideDone g f) (t : Timer)
    (ht : t ∈ (if s.isOpen = true then s.timers.filter (fun t => some t.id ≠ s.hideTimeout)
            else s.timers.filter (fun t => some t.id ≠ s.hideTimeout) ++ extra))
    (g : Nat) (f : Bool) (hcb : t.callback = Callback.hideDone g f) : False := by
  have hmem : t ∈ s.timers.filter (fun t => some t.id ≠ s.hideTimeout) := by
    by_cases ho : s.isOpen = true
    · rw [if_pos ho] at ht; exact ht
    · rw [if_neg ho] at ht
      rcases List.mem_append.1 ht with ht | ht
      · exact ht
      · exact absurd hcb (hextra t ht g f)
  have hin := List.mem_of_mem_filter hmem
  have hne := List.of_mem_filter hmem
  have := (h.2.2.2.1 t hin g f hcb).2
  simp [this] at hne

theorem HistorySync.showItem {site : Site} {g0 : Nat} {s : Page} (h : HistorySync site g0 s)
    (it : Option ItemRef) (f : Bool) : HistorySync site g0 (showItem site g0 it f s).page := by
  cases it with
  | none =>
    exact h.frame rfl rfl rfl rfl (fun t ht _ _ _ => ht) rfl (Or.inr rfl)
  | some it =>
    by_cases hsame : s.currentItem g0 = some it
    · rw [showItem_same site g0 it f s hsame]; exact h
    · rw [showItem_eq site g0 it f s hsame]
      have hT := fun t ht g f' hcb => showItem_no_hide_timer h
        [{ id := s.nextTimerId, due := s.now + DOM_UPDATE_DELAY
           callback := Callback.showUpdate g0 it
             (coveringTransform (itemData site it).nodeRect (itemData site it).image
               (1 / 2) (1 / 2))
             (fittingTransformOf (site.galleries g0).options s.innerWidth s.innerHeight
               (itemData site it).image) }]
        (fun t ht g f => by rw [List.mem_singleton.1 ht]; simp) t ht g f' hcb
      obtain ⟨h1, h2, _, h4, _⟩ := h
      unfold HistorySync
      simp only [done]
      by_cases hflag : isHistoryStateWithLightlookIndex (historyState s) = true
      · obtain ⟨j, hj⟩ := (historyState_index_iff s).1 hflag
        have hlast := h2 _ _ hj
        simp only [if_pos hflag]
        refine ⟨?_, ?_, ?_, ?_, ?_⟩
        · rw [List.length_set]; exact h1
        · intro k i hk
          rw [List.length_set]
          rw [List.getElem?_set] at hk
          by_cases hkc : s.cursor = k
          · rw [← hkc]; exact hlast
          · rw [if_neg hkc] at hk; exact h2 k i hk
        · intro _ i hi
          rw [getLast?_set_last _ _ _ hlast] at hi
          rw [Function.update_same]
          exact (HState.lightlookIndex.inj (Option.some.inj hi)).symm
        · intro t ht g f' hcb
          exact (hT t ht g f' hcb).elim
        · intro a ha
          exact (Option.some.inj ha).symm
      · have hlen : (s.entries.take (s.cursor + 1)).length = s.cursor + 1 := by
          rw [List.length_take]; omega
        simp only [if_neg hflag]
        refine ⟨?_, ?_, ?_, ?_, ?_⟩
        · simp [hlen]
        · intro k i hk
          rw [List.length_append, hlen, List.length_singleton]
          by_cases hkc : k < s.cursor + 1
          · exfalso
            rw [List.getElem?_append_left (by rw [hlen]; exact hkc),
              List.getElem?_take_of_lt hkc] at hk
            have hk1 := h2 k i hk
            have hkeq : k = s.cursor := by omega
            subst hkeq
            exact hflag ((historyState_index_iff s).2 ⟨i, hk⟩)
          · by_cases hke : k = s.cursor + 1
            · rw [hke]
            · exfalso
              rw [List.getElem?_eq_none (by
                rw [List.length_append, hlen, List.length_singleton]; omega)] at hk
              simp at hk
        · intro _ i hi
          rw [List.getLast?_append, List.getLast?_singleton] at hi
          rw [Function.update_same]
          simp at hi
          exact hi.symm
        · intro t ht g f' hcb
          exact (hT t ht g f' hcb).elim
        · intro a ha
          exact (Option.some.inj ha).symm
theorem performClose_eq (site : Site) (g : Nat) (f : Bool) (s : Page) (cur : ItemRef)
    (h : s.isOpen = true) (hc : s.currentItem g = some cur) :
    performClose site g f s
      = done
        { s with
          openHandlers := Function.update s.openHandlers g false
          wrapperOpen := false
          timers := s.timers.filter (fun t => some t.id ≠ s.showTimeout)
            ++ [{ id := s.nextTimerId, due := s.now + DOM_UPDATE_DELAY
                  callback := Callback.transitionStart
                    (coveringTransform (itemData site cur).nodeRect (itemData site cur).image
                      (1 / 2) (1 / 2)) HIDE_ANIMATION_DURATION },
                { id := s.nextTimerId + 1, due := s.now + HIDE_ANIMATION_DURATION
                  callback := Callback.hideDone g f }]
          nextTimerId := s.nextTimerId + 1 + 1
          hideTimeout := some (s.nextTimerId + 1)
          isOpen := false } := by
  simp [performClose, h, hc, done, Lightlook.clearTimeout, Lightlook.transition,
    requestDOMUpdate, Lightlook.setTimeout]

theorem HistorySync.performClose {site : Site} {g0 : Nat} {s : Page}
    (h : HistorySync site g0 s) (f : Bool) :
    HistorySync site g0 (performClose site g0 f s).page := by
  cases ho : s.isOpen with
  | false => rw [performClose_of_closed site g0 f s ho]; exact h
  | true =>
    cases hc : s.currentItem g0 with
    | none =>
      rw [performClose_of_open_no_item site g0 f s ho hc]
      refine h.frame rfl rfl rfl rfl ?_ rfl (Or.inl rfl)
      intro t ht _ _ _
      exact List.mem_of_mem_filter ht
    | some cur =>
      rw [performClose_eq site g0 f s cur ho hc]
      obtain ⟨h1, h2, _, h4, h5⟩ := h
      refine ⟨h1, h2, fun hopen => by simp [done] at hopen, ?_, h5⟩
      intro t ht g f' hcb
      simp only [done, List.mem_append, List.mem_cons, List.mem_singleton, List.not_mem_nil,
        or_false] at ht
      rcases ht with ht | ht | ht
      · have := (h4 t (List.mem_of_mem_filter ht) g f' hcb).1
        rw [ho] at this; cases this
      · subst ht; simp at hcb
      · subst ht; exact ⟨rfl, rfl⟩

theorem HistorySync.close {site : Site} {g0 : Nat} {s : Page}
    (h : HistorySync site g0 s) (f : Bool) :
    HistorySync site g0 (close site g0 f s).page := by
  unfold Lightlook.close Outcome.andThen
  have hp := h.performClose f
  cases ht : (Lightlook.performClose site g0 f s).thrown with
  | some e => exact hp
  | none => exact hp.blockingBack

theorem HistorySync.showItemAtIndex {site : Site} {g0 : Nat} {s : Page}
    (h : HistorySync site g0 s) (i : ℤ) :
    HistorySync site g0 (showItemAtIndex site g0 i s).page := by
  unfold Lightlook.showItemAtIndex
  cases (site.galleries g0).options.navigable with
  | false => exact h
  | true =>
    cases (site.galleries g0).options.circles with
    | false => exact h.showItem _ _
    | true =>
      cases mod site.mathFloor i ((site.galleries g0).items.length : ℤ) with
      | error e => exact h
      | ok idx => exact h.showItem _ _

theorem HistorySync.showNextItem {site : Site} {g0 : Nat} {s : Page}
    (h : HistorySync site g0 s) : HistorySync site g0 (showNextItem site g0 s).page :=
  h.showItemAtIndex _

theorem HistorySync.showPreviousItem {site : Site} {g0 : Nat} {s : Page}
    (h : HistorySync site g0 s) : HistorySync site g0 (showPreviousItem site g0 s).page :=
  h.showItemAtIndex _

theorem HistorySync.popstateListener {site : Site} {g0 : Nat} {s : Page}
    (h : HistorySync site g0 s) (st : HState) :
    HistorySync site g0 (popstateListener site st s).page := by
  unfold Lightlook.popstateListener
  cases s.isBlocking with
  | true => exact h
  | false =>
    cases ha : s.activeLightlook with
    | none => exact h
    | some a =>
      have : a = g0 := h.2.2.2.2 a ha
      subst this
      cases st with
      | null => exact h.performClose false
      | lightlookIndex i => exact h.showItemAtIndex i
      | other => exact h

theorem HistorySync.traverseTo {site : Site} {g0 : Nat} {s : Page}
    (h : HistorySync site g0 s) (target : Nat) :
    HistorySync site g0 (traverseTo site target s).page := by
  unfold Lightlook.traverseTo
  by_cases ht : target < s.entries.length ∧ target ≠ s.cursor
  · rw [if_pos ht]
    refine HistorySync.popstateListener ?_ _
    exact ⟨ht.1, h.2.1, h.2.2.1, h.2.2.2.1, h.2.2.2.2⟩
  · rw [if_neg ht]; exact h

theorem HistorySync.backArrives {site : Site} {g0 : Nat} {s : Page}
    (h : HistorySync site g0 s) : HistorySync site g0 (backArrives site s).page := by
  unfold Lightlook.backArrives
  by_cases hp : s.pendingBack = 0
  · rw [if_pos hp]; exact h
  · rw [if_neg hp]
    have h' : HistorySync site g0 { s with pendingBack := s.pendingBack - 1 } :=
      h.frame rfl rfl rfl rfl (fun t ht _ _ _ => ht) rfl (Or.inl rfl)
    dsimp only
    split
    · exact h'
    · exact h'.traverseTo _
theorem HistorySync.andThen_done {site : Site} {g0 : Nat} {r : Outcome}
    (hr : HistorySync site g0 r.page) (k : Page → Page)
    (hk : ∀ p, HistorySync site g0 p → HistorySync site g0 (k p)) :
    HistorySync site g0 (r.andThen fun p => done (k p)).page := by
  unfold Outcome.andThen
  cases r.thrown with
  | some e => exact hr
  | none => exact hk _ hr

/-- Frame rule for updates of fields `HistorySync` does not read. -/
theorem HistorySync.same {site : Site} {g0 : Nat} {s s' : Page} (h : HistorySync site g0 s)
    (he : s'.entries = s.entries) (hcu : s'.cursor = s.cursor) (ho : s'.isOpen = s.isOpen)
    (hc : s'.currentItem = s.currentItem) (ht : s'.timers = s.timers)
    (hh : s'.hideTimeout = s.hideTimeout) (ha : s'.activeLightlook = s.activeLightlook) :
    HistorySync site g0 s' :=
  h.frame he hcu ho (by rw [hc]) (fun t htm _ _ _ => ht ▸ htm) hh (Or.inl ha)

theorem HistorySync.runCallback {site : Site} {g0 : Nat} {s : Page}
    (h : HistorySync site g0 s) (cb : Callback)
    (hcb : ∀ (g : Nat) (f : Bool), cb = Callback.hideDone g f → s.isOpen = false) :
    HistorySync site g0 (runCallback site cb s) := by
  cases cb with
  | showUpdate g newItem fromT toT =>
    have h1 : HistorySync site g0 (setVisible newItem false { s with wrapperOpen := true }) :=
      h.same rfl rfl rfl rfl rfl rfl rfl
    have h2 := (h1.transition (some fromT) toT SHOW_ANIMATION_DURATION).setTimeout
      (Callback.showDone g) SHOW_ANIMATION_DURATION (fun _ _ => by simp)
    exact h2.same rfl rfl rfl rfl rfl rfl rfl
  | showDone g =>
    have h1 : HistorySync site g0
        { s with initScrollPoint := (s.scrollX, s.scrollY)
                 openHandlers := Function.update s.openHandlers g true } :=
      h.same rfl rfl rfl rfl rfl rfl rfl
    exact h1.setTimeout _ _ (fun _ _ => by simp)
  | installScroll g => exact h.same rfl rfl rfl rfl rfl rfl rfl
  | transitionStart toT d =>
    have h1 : HistorySync site g0 (applyTo toT { s with imageUsesTransitions := true }) :=
      h.same rfl rfl rfl rfl rfl rfl rfl
    exact h1.setTimeout _ _ (fun _ _ => by simp)
  | transitionEnd => exact h.same rfl rfl rfl rfl rfl rfl rfl
  | unblock => exact h.same rfl rfl rfl rfl rfl rfl rfl
  | hideDone g f =>
    have hclosed := hcb g f rfl
    unfold Lightlook.runCallback
    cases hc : s.currentItem g with
    | none => simpa [hc] using h
    | some cur =>
      simp only [hc]
      obtain ⟨h1, h2, _, h4, h5⟩ := h
      cases f with
      | false =>
        exact ⟨h1, h2, fun ho => by simp [setVisible, enableEventListeners, hclosed] at ho,
          h4, h5⟩
      | true =>
        exact ⟨h1, h2, fun ho => by simp [setVisible, enableEventListeners, hclosed] at ho,
          h4, h5⟩

theorem HistorySync.fireTimer {site : Site} {g0 : Nat} {s : Page}
    (h : HistorySync site g0 s) (id : Nat) : HistorySync site g0 (fireTimer site id s) := by
  unfold Lightlook.fireTimer
  cases hf : s.timers.find? (fun t => t.id = id) with
  | none => exact h
  | some t =>
    have hmem : t ∈ s.timers := List.mem_of_find?_eq_some hf
    have h1 : HistorySync site g0
        { s with timers := s.timers.filter (fun u => u.id ≠ id), now := max s.now t.due } :=
      h.frame rfl rfl rfl rfl (fun u hu _ _ _ => List.mem_of_mem_filter hu) rfl (Or.inl rfl)
    exact h1.runCallback t.callback (fun g f hcb => (h.2.2.2.1 t hmem g f hcb).1)
theorem HistorySync.itemHandleClick {site : Site} {g0 : Nat} {s : Page}
    (h : HistorySync site g0 s) (it : ItemRef) (hg : it.gallery = g0) :
    HistorySync site g0 (itemHandleClick site it s).page := by
  unfold Lightlook.itemHandleClick
  split
  · exact h
  · rw [hg]; exact h.showItem _ _

theorem HistorySync.itemHandleKeydown {site : Site} {g0 : Nat} {s : Page}
    (h : HistorySync site g0 s) (it : ItemRef) (key : Nat) (hg : it.gallery = g0) :
    HistorySync site g0 (itemHandleKeydown site it key s).page := by
  unfold Lightlook.itemHandleKeydown
  split
  · split
    · exact h
    · rw [hg]
      have h1 : HistorySync site g0 { s with isLongKeyPress := true } :=
        h.same rfl rfl rfl rfl rfl rfl rfl
      exact HistorySync.andThen_done (h1.showItem _ _)
        (fun p => { p with keyupOnce := p.keyupOnce + 1 })
        (fun p hp => hp.same rfl rfl rfl rfl rfl rfl rfl)
  · exact h

theorem HistorySync.handleKeydown {site : Site} {g0 : Nat} {s : Page}
    (h : HistorySync site g0 s) (key : Nat) :
    HistorySync site g0 (handleKeydown site g0 key s).page := by
  unfold Lightlook.handleKeydown
  split
  · split
    · exact h
    · have h1 : HistorySync site g0 { s with isLongKeyPress := true } :=
        h.same rfl rfl rfl rfl rfl rfl rfl
      exact HistorySync.andThen_done (h1.performClose _)
        (fun p => { p with keyupOnce := p.keyupOnce + 1 })
        (fun p hp => hp.same rfl rfl rfl rfl rfl rfl rfl)
  · exact h

theorem HistorySync.handleKeyup {site : Site} {g0 : Nat} {s : Page}
    (h : HistorySync site g0 s) (key : Nat) :
    HistorySync site g0 (handleKeyup site g0 key s).page := by
  unfold Lightlook.handleKeyup
  split
  · exact h.showPreviousItem
  · split
    · exact h.showNextItem
    · exact h

theorem HistorySync.keyupOnceListeners {site : Site} {g0 : Nat} {s : Page}
    (h : HistorySync site g0 s) : HistorySync site g0 (keyupOnceListeners s) := by
  unfold Lightlook.keyupOnceListeners
  split
  · exact h
  · exact h.same rfl rfl rfl rfl rfl rfl rfl

theorem HistorySync.handleScroll {site : Site} {g0 : Nat} {s : Page}
    (h : HistorySync site g0 s) : HistorySync site g0 (handleScroll site g0 s).page := by
  unfold Lightlook.handleScroll
  dsimp only
  refine HistorySync.andThen_done ?_
    (fun p => { p with imageOffset :=
      (p.initScrollPoint.1 - max p.scrollX 0, p.initScrollPoint.2 - max p.scrollY 0) })
    (fun p hp => hp.same rfl rfl rfl rfl rfl rfl rfl)
  split
  · exact HistorySync.andThen_done (h.performClose _)
      (fun p => { p with isScrollClosing := true })
      (fun p hp => hp.same rfl rfl rfl rfl rfl rfl rfl)
  · exact h

theorem HistorySync.handleResize {site : Site} {g0 : Nat} {s : Page}
    (h : HistorySync site g0 s) : HistorySync site g0 (handleResize site g0 s).page := by
  unfold Lightlook.handleResize
  split
  · exact h
  · split
    · exact h
    · exact h.same rfl rfl rfl rfl rfl rfl rfl

theorem HistorySync.touchstart {site : Site} {g0 : Nat} {s : Page}
    (h : HistorySync site g0 s) (touches : List Touch) :
    HistorySync site g0 (touchstart touches s) := by
  unfold Lightlook.touchstart
  split
  · exact h
  · split
    · exact h.same rfl rfl rfl rfl rfl rfl rfl
    · exact h

theorem HistorySync.touchmove {site : Site} {g0 : Nat} {s : Page}
    (h : HistorySync site g0 s) (touches : List Touch) :
    HistorySync site g0 (touchmove site touches s).page := by
  unfold Lightlook.touchmove
  split
  · exact h
  · split
    · exact h
    · dsimp only
      split
      · split
        · exact h.same rfl rfl rfl rfl rfl rfl rfl
        · exact h.same rfl rfl rfl rfl rfl rfl rfl
      · split
        · exact h.same rfl rfl rfl rfl rfl rfl rfl
        · exact h.same rfl rfl rfl rfl rfl rfl rfl
      · split
        · exact h.same rfl rfl rfl rfl rfl rfl rfl
        · exact h.same rfl rfl rfl rfl rfl rfl rfl

theorem HistorySync.touchend {site : Site} {g0 : Nat} {s : Page}
    (h : HistorySync site g0 s) : HistorySync site g0 (touchend site s).page := by
  unfold Lightlook.touchend
  split
  · exact h
  · dsimp only
    refine HistorySync.andThen_done ?_ (fun p => { p with touchsession := none })
      (fun p hp => hp.same rfl rfl rfl rfl rfl rfl rfl)
    have h1 : HistorySync site g0
        { s with closeButtonOpacity := none, boxOpacity := none, boxUsesTransition := true } :=
      h.same rfl rfl rfl rfl rfl rfl rfl
    split
    · split
      · split
        · exact h1
        · next a ha =>
          have : a = g0 := h.2.2.2.2 a ha
          subst this
          exact h1.close false
      · split
        · exact h1
        · exact h1.transition _ _ _
    · split
      · split
        · exact h
        · next a ha =>
          have : a = g0 := h.2.2.2.2 a ha
          subst this
          split
          · exact h.showPreviousItem
          · exact h.showNextItem
      · exact h
    · exact h

theorem HistorySync.perform {site : Site} {g0 : Nat} {s : Page}
    (h : HistorySync site g0 s) (a : Action) (ha : a.onGallery g0) :
    HistorySync site g0 (perform site a s).page := by
  cases a with
  | showItem g newItem f =>
    cases newItem with
    | none => cases ha; exact h.showItem none f
    | some it => cases ha.1; exact h.showItem (some it) f
  | showItemAtIndex g i => cases ha; exact h.showItemAtIndex i
  | showNextItem g => cases ha; exact h.showNextItem
  | showPreviousItem g => cases ha; exact h.showPreviousItem
  | performClose g f => cases ha; exact h.performClose f
  | close g f => cases ha; exact h.close f
  | itemClick it =>
    unfold Lightlook.perform
    dsimp only
    split
    · exact h.itemHandleClick it ha
    · exact h
  | itemKeydown it key =>
    unfold Lightlook.perform
    dsimp only
    split
    · exact h.itemHandleKeydown it key ha
    · exact h
  | overlayClick g =>
    cases ha
    unfold Lightlook.perform
    dsimp only
    split
    · exact h.close false
    · exact h
  | keydown g key =>
    cases ha
    unfold Lightlook.perform
    dsimp only
    split
    · exact h.handleKeydown key
    · exact h
  | keyup g key =>
    cases ha
    unfold Lightlook.perform
    dsimp only
    split
    · exact h.keyupOnceListeners.handleKeyup key
    · exact h.keyupOnceListeners
  | scroll g x y =>
    cases ha
    unfold Lightlook.perform
    dsimp only
    have h1 : HistorySync site g0 { s with scrollX := x, scrollY := y } :=
      h.same rfl rfl rfl rfl rfl rfl rfl
    split
    · exact h1.handleScroll
    · exact h1
  | resize g w v =>
    cases ha
    unfold Lightlook.perform
    dsimp only
    have h1 : HistorySync site g0 { s with innerWidth := w, innerHeight := v } :=
      h.same rfl rfl rfl rfl rfl rfl rfl
    split
    · exact h1.handleResize
    · exact h1
  | touchstart touches => exact h.touchstart touches
  | touchmove touches => exact h.touchmove touches
  | touchend => exact h.touchend
  | timer id => exact h.fireTimer id
  | navigate target => exact h.traverseTo target
  | backArrives => exact h.backArrives
  | wait ms => exact h.same rfl rfl rfl rfl rfl rfl rfl

theorem HistorySync.run {site : Site} {g0 : Nat} (acts : List Action) :
    ∀ s : Page, HistorySync site g0 s → (∀ a ∈ acts, a.onGallery g0) →
      HistorySync site g0 (run site acts s) := by
  induction acts with
  | nil => intro s h _; exact h
  | cons a as ih =>
    intro s h ha
    simp only [Lightlook.run, List.foldl_cons]
    exact ih _ (h.perform a (ha a (List.mem_cons_self _ _)))
      (fun b hb => ha b (List.mem_cons_of_mem _ hb))
theorem HistorySync.initialPage (site : Site) (g0 : Nat) (vw vh : ℚ) (entries : List HState)
    (cursor : Nat) (hcur : cursor < entries.length)
    (hshape : ∀ (k : Nat) (i : ℤ), entries[k]? = some (HState.lightlookIndex i) →
      k + 1 = entries.length) :
    HistorySync site g0 (initialPage vw vh entries cursor) :=
  ⟨hcur, hshape, fun h => by simp [Lightlook.initialPage] at h,
    fun t ht => by simp [Lightlook.initialPage] at ht,
    fun a ha => by simp [Lightlook.initialPage] at ha⟩

theorem HistorySync.top {site : Site} {g0 : Nat} {s : Page} (h : HistorySync site g0 s)
    (ho : s.isOpen = true) (i : ℤ) (hi : historyState s = HState.lightlookIndex i) :
    i = indexOf site g0 (s.currentItem g0) := by
  obtain ⟨j, hj⟩ := (historyState_index_iff s).1 (by rw [hi]; rfl)
  have hij : j = i := by
    have : historyState s = HState.lightlookIndex j := by
      unfold historyState
      rw [List.getD_eq_getElem?_getD, hj]; rfl
    rw [hi] at this
    exact (HState.lightlookIndex.inj this).symm
  subst hij
  have hlast := h.2.1 _ _ hj
  refine h.2.2.1 ho j ?_
  rw [List.getLast?_eq_getElem?, ← hlast]
  simpa using hj

theorem showItem_history (site : Site) (g : Nat) (it : ItemRef) (f : Bool) (s : Page)
    (hcur : s.cursor < s.entries.length) (h : s.currentItem g ≠ some it) :
    (showItem site g (some it) f s).thrown = none
      ∧ (showItem site g (some it) f s).page.isOpen = true
      ∧ (showItem site g (some it) f s).page.currentItem g = some it
      ∧ historyState (showItem site g (some it) f s).page
          = HState.lightlookIndex (indexOf site g (some it))
      ∧ (isHistoryStateWithLightlookIndex (historyState s) = true →
          (showItem site g (some it) f s).page.entries
              = s.entries.set s.cursor (HState.lightlookIndex (indexOf site g (some it)))
            ∧ (showItem site g (some it) f s).page.cursor = s.cursor)
      ∧ (isHistoryStateWithLightlookIndex (historyState s) = false →
          (showItem site g (some it) f s).page.entries
              = s.entries.take (s.cursor + 1)
                  ++ [HState.lightlookIndex (indexOf site g (some it))]
            ∧ (showItem site g (some it) f s).page.cursor = s.cursor + 1) := by
  have hlen : (s.entries.take (s.cursor + 1)).length = s.cursor + 1 := by
    rw [List.length_take]; omega
  rw [showItem_eq site g it f s h]
  refine ⟨rfl, rfl, by simp [done], ?_, ?_, ?_⟩
  · cases hf : isHistoryStateWithLightlookIndex (historyState s) with
    | true =>
      simp only [done, historyState, hf, if_true]
      rw [List.getD_eq_getElem?_getD, List.getElem?_set]
      simp [hcur]
    | false =>
      simp only [done, historyState, hf, Bool.false_eq_true, if_false, hlen]
      rw [List.getD_eq_getElem?_getD, List.getElem?_append_right (by rw [hlen])]
      simp [hlen]
  · intro hf
    simp [done, hf]
  · intro hf
    simp [done, hf, hlen]

/-- C6: on a page with a single gallery `g0`, start from a freshly loaded page
whose session history has a current entry and carries an item index at most in
its last entry, and apply any finite sequence of actions on that gallery:
calls of `showItem`, `showItemAtIndex`, `showNextItem`, `showPreviousItem`,
`performClose`, `close`, input events, timers firing, and history traversals
(each delivers to the popstate listener the state of the entry it makes
current). In the page `s` reached, whenever the overlay is open and the current
history entry carries an item index, that index is the position of
`currentItem` in the gallery's items (`indexOf`), and the same holds of the
last entry of the stack. Moreover every `showItem` from `s` that
is not a no-op completes with the overlay open on that item and the current
entry carrying the item's position: it replaced the current entry when that
already carried an index and pushed a new entry after it otherwise. -/
theorem history_top_matches_current (site : Site) (g0 : Nat) (vw vh : ℚ)
    (entries : List HState) (cursor : Nat) (acts : List Action) (s : Page)
    (hcur : cursor < entries.length)
    (hshape : ∀ (k : Nat) (i : ℤ), entries[k]? = some (HState.lightlookIndex i) →
      k + 1 = entries.length)
    (hacts : ∀ a ∈ acts, a.onGallery g0)
    (hs : s = run site acts (initialPage vw vh entries cursor)) :
    (s.isOpen = true → ∀ i : ℤ, historyState s = HState.lightlookIndex i →
        i = indexOf site g0 (s.currentItem g0))
      ∧ (s.isOpen = true → ∀ i : ℤ, s.entries.getLast? = some (HState.lightlookIndex i) →
          i = indexOf site g0 (s.currentItem g0))
      ∧ (∀ (it : ItemRef) (f : Bool), s.currentItem g0 ≠ some it →
          (showItem site g0 (some it) f s).thrown = none
            ∧ (showItem site g0 (some it) f s).page.isOpen = true
            ∧ (showItem site g0 (some it) f s).page.currentItem g0 = some it
            ∧ historyState (showItem site g0 (some it) f s).page
                = HState.lightlookIndex (indexOf site g0 (some it))
            ∧ (isHistoryStateWithLightlookIndex (historyState s) = true →
                (showItem site g0 (some it) f s).page.entries
                    = s.entries.set s.cursor (HState.lightlookIndex (indexOf site g0 (some it)))
                  ∧ (showItem site g0 (some it) f s).page.cursor = s.cursor)
            ∧ (isHistoryStateWithLightlookIndex (historyState s) = false →
                (showItem site g0 (some it) f s).page.entries
                    = s.entries.take (s.cursor + 1)
                        ++ [HState.lightlookIndex (indexOf site g0 (some it))]
                  ∧ (showItem site g0 (some it) f s).page.cursor = s.cursor + 1)) := by
  have h : HistorySync site g0 s := by
    rw [hs]
    exact HistorySync.run acts _ (HistorySync.initialPage site g0 vw vh entries cursor hcur hshape)
      hacts
  exact ⟨fun ho i hi => h.top ho i hi, h.2.2.1,
    fun it f hne => showItem_history site g0 it f s h.1 hne⟩
/-- The invariant at the end of the sample browsing session: the overlay is open
on item 0 and the current entry carries index 0. -/
theorem history_top_matches_current_witness :
    ((0 : Nat) < [HState.null].length
      ∧ (∀ (k : Nat) (i : ℤ), [HState.null][k]? = some (HState.lightlookIndex i) →
          k + 1 = [HState.null].length)
      ∧ (∀ a ∈ browseActions, a.onGallery 0))
      ∧ (run (sampleSite {} 3) browseActions freshPage).isOpen = true
      ∧ historyState (run (sampleSite {} 3) browseActions freshPage) = HState.lightlookIndex 0
      ∧ (0 : ℤ) = indexOf (sampleSite {} 3) 0
          ((run (sampleSite {} 3) browseActions freshPage).currentItem 0) := by
  have hshape : ∀ (k : Nat) (i : ℤ), [HState.null][k]? = some (HState.lightlookIndex i) →
      k + 1 = [HState.null].length := by
    intro k i h
    cases k <;> simp at h
  have hacts : ∀ a ∈ browseActions, a.onGallery 0 := by
    simp [browseActions, Action.onGallery]
  exact ⟨⟨by decide, hshape, hacts⟩, rfl, rfl,
    (history_top_matches_current (sampleSite {} 3) 0 1024 768 [HState.null] 0 browseActions
      (run (sampleSite {} 3) browseActions freshPage) (by decide) hshape hacts rfl).1 rfl 0 rfl⟩

/-! ## The re-entrancy guard of the history bridge -/

theorem close_blocks (site : Site) (g : Nat) (f : Bool) (s : Page)
    (h : (close site g f s).thrown = none) :
    (close site g f s).page.isBlocking = true
      ∧ (close site g f s).page.pendingBack = s.pendingBack + 1 := by
  cases ho : s.isOpen with
  | false =>
    simp [close, performClose_of_closed site g f s ho, done, Outcome.andThen, blockingBack,
      Lightlook.setTimeout]
  | true =>
    cases hc : s.currentItem g with
    | none =>
      rw [close, performClose_of_open_no_item site g f s ho hc] at h
      simp [raise, Outcome.andThen] at h
    | some cur =>
      simp [close, performClose_eq site g f s cur ho hc, done, Outcome.andThen, blockingBack,
        Lightlook.setTimeout]

/-- C11: while `blockingHistory.isBlocking` is set, the popstate listener returns
at once whatever state the notification carries: the page is unchanged, so
neither `performClose` nor `showItemAtIndex` has run. Hence a history traversal
carried out while blocking changes nothing but the current entry, and the
traversal requested by `back()` changes nothing but the current entry and the
count of pending requests. A `close()` that completes leaves the bridge
blocking with exactly one more pending request, so the pop of its own
back-navigation, arriving before the flag is cleared, closes nothing a second
time and changes no item. -/
theorem popstate_ignored_while_blocking (site : Site) (state : HState) (s : Page)
    (hb : s.isBlocking = true) :
    popstateListener site state s = done s
      ∧ (∀ target : Nat, ∃ c : Nat, traverseTo site target s = done { s with cursor := c })
      ∧ (∃ c : Nat, backArrives site s
          = done { s with pendingBack := s.pendingBack - 1, cursor := c })
      ∧ (∀ (g : Nat) (f : Bool) (s0 : Page), (close site g f s0).thrown = none →
          (close site g f s0).page.isBlocking = true
            ∧ (close site g f s0).page.pendingBack = s0.pendingBack + 1) := by
  have hpop : ∀ (st : HState) (p : Page), p.isBlocking = true →
      popstateListener site st p = done p := by
    intro st p hp
    simp [popstateListener, hp]
  have htrav : ∀ (target : Nat) (p : Page), p.isBlocking = true →
      ∃ c : Nat, traverseTo site target p = done { p with cursor := c } := by
    intro target p hp
    unfold traverseTo
    split
    · exact ⟨target, hpop _ _ hp⟩
    · exact ⟨p.cursor, rfl⟩
  refine ⟨hpop state s hb, fun target => htrav target s hb, ?_, close_blocks site⟩
  unfold backArrives
  split
  · next h0 =>
    refine ⟨s.cursor, ?_⟩
    cases s
    simp only at h0
    subst h0
    rfl
  · dsimp only
    split
    · exact ⟨s.cursor, rfl⟩
    · exact htrav _ _ hb

/-- The guard on the sample page: right after `close` on the open overlay the
bridge is blocking; a pop carrying an item index shows no item, and the pop of
the requested back-navigation leaves the overlay as `close` left it. -/
theorem popstate_ignored_while_blocking_witness :
    closingPage.isBlocking = true
      ∧ popstateListener (sampleSite {} 3) (HState.lightlookIndex 2) closingPage
          = done closingPage
      ∧ popstateListener (sampleSite {} 3) HState.null closingPage = done closingPage
      ∧ (backArrives (sampleSite {} 3) closingPage).page.currentItem 0
          = some { gallery := 0, index := 1 }
      ∧ (backArrives (sampleSite {} 3) closingPage).page.timers = closingPage.timers
      ∧ historyState (backArrives (sampleSite {} 3) closingPage).page = HState.null :=
  ⟨rfl, (popstate_ignored_while_blocking (sampleSite {} 3) (HState.lightlookIndex 2)
      closingPage rfl).1,
    (popstate_ignored_while_blocking (sampleSite {} 3) HState.null closingPage rfl).1,
    rfl, rfl, rfl⟩
/-! ## Covering transform -/

theorem coveringTransform_scale (targetRect : Rect) (cover : LightlookImage) (ox oy : ℚ)
    (hw : 0 < cover.width) :
    (coveringTransform targetRect cover ox oy).scale
      = JsNum.fin (targetRect.width / cover.width) := by
  simp [coveringTransform, JsNum.div, ne_of_gt hw]

/-- C12, the claim as stated fails: the transform has one scale for both axes,
`targetRect.width / cover.width`. For an 800 x 400 cover box, the target
rectangle 200 x 150 at (10, 10) and the origin (1/2, 1/2), the scale is 1/4 and
the cover box lands on the rectangle 200 x 100 at (10, 35): left and width are
those of the target, top and height are not. -/
theorem coveringTransform_misses_height :
    (coveringTransform { left := 10, top := 10, width := 200, height := 150 }
        { width := 800, height := 400 } (1 / 2) (1 / 2)).scale = JsNum.fin (1 / 4)
      ∧ renderedBox
          (coveringTransform { left := 10, top := 10, width := 200, height := 150 }
            { width := 800, height := 400 } (1 / 2) (1 / 2)).x
          (coveringTransform { left := 10, top := 10, width := 200, height := 150 }
            { width := 800, height := 400 } (1 / 2) (1 / 2)).y
          (1 / 4) 800 400 (1 / 2) (1 / 2)
        = { left := 10, top := 35, width := 200, height := 100 }
      ∧ ({ left := 10, top := 35, width := 200, height := 100 } : Rect)
        ≠ { left := 10, top := 10, width := 200, height := 150 } := by
  refine ⟨?_, ?_, ?_⟩
  · rw [coveringTransform_scale _ _ _ _ (by norm_num)]
    norm_num
  · simp only [renderedBox, coveringTransform]
    norm_num
  · intro h
    have := congrArg Rect.top h
    norm_num at this

/-- C12 as amended: for every target rectangle, every cover box of positive
width and every fractional origin, `coveringTransform` returns the
scale `targetRect.width / cover.width` and an offset such that the cover box,
scaled by it about `(originX * cover.width, originY * cover.height)` and then
translated by the offset, has the left edge and the width of `targetRect`, the
height `scale * cover.height`, and its point at the fraction `originY` of its
height on the point at the fraction `originY` of the target's height; it is
exactly `targetRect` when the two boxes have the same aspect ratio. -/
theorem coveringTransform_covers (targetRect : Rect) (cover : LightlookImage) (ox oy : ℚ)
    (hw : 0 < cover.width) :
    (coveringTransform targetRect cover ox oy).scale
        = JsNum.fin (targetRect.width / cover.width)
      ∧ (renderedBox (coveringTransform targetRect cover ox oy).x
          (coveringTransform targetRect cover ox oy).y (targetRect.width / cover.width)
          cover.width cover.height ox oy).left = targetRect.left
      ∧ (renderedBox (coveringTransform targetRect cover ox oy).x
          (coveringTransform targetRect cover ox oy).y (targetRect.width / cover.width)
          cover.width cover.height ox oy).width = targetRect.width
      ∧ (renderedBox (coveringTransform targetRect cover ox oy).x
          (coveringTransform targetRect cover ox oy).y (targetRect.width / cover.width)
          cover.width cover.height ox oy).height
          = targetRect.width / cover.width * cover.height
      ∧ (renderedBox (coveringTransform targetRect cover ox oy).x
          (coveringTransform targetRect cover ox oy).y (targetRect.width / cover.width)
          cover.width cover.height ox oy).top
          + oy * (targetRect.width / cover.width * cover.height)
          = targetRect.top + oy * targetRect.height
      ∧ (targetRect.height * cover.width = targetRect.width * cover.height →
          renderedBox (coveringTransform targetRect cover ox oy).x
            (coveringTransform targetRect cover ox oy).y (targetRect.width / cover.width)
            cover.width cover.height ox oy = targetRect) := by
  have hw' : cover.width ≠ 0 := ne_of_gt hw
  refine ⟨coveringTransform_scale _ _ _ _ hw, ?_, ?_, rfl, ?_, ?_⟩
  · simp only [renderedBox, coveringTransform]
    field_simp
    ring
  · simp only [renderedBox]
    field_simp
  · simp only [renderedBox, coveringTransform]
    field_simp
    ring
  · intro hasp
    have hheight : targetRect.width / cover.width * cover.height = targetRect.height := by
      field_simp
      linarith
    obtain ⟨l, t, w, h⟩ := targetRect
    simp only [renderedBox, coveringTransform, Rect.mk.injEq] at hheight ⊢
    refine ⟨?_, ?_, ?_, hheight⟩
    · field_simp
      ring
    · have : oy * cover.height + w / cover.width * (0 - oy * cover.height)
          + (t + cover.height * -oy + h * oy)
          = t + oy * (h - w / cover.width * cover.height) := by ring
      rw [this, hheight]; ring
    · field_simp

/-- The sample item: its 800 x 600 image lands exactly on its 200 x 150
thumbnail at (10, 10). -/
theorem coveringTransform_covers_witness :
    (0 : ℚ) < sampleItem.image.width
      ∧ (coveringTransform sampleItem.nodeRect sampleItem.image (1 / 2) (1 / 2)).scale
          = JsNum.fin (sampleItem.nodeRect.width / sampleItem.image.width)
      ∧ renderedBox (coveringTransform sampleItem.nodeRect sampleItem.image (1 / 2) (1 / 2)).x
          (coveringTransform sampleItem.nodeRect sampleItem.image (1 / 2) (1 / 2)).y
          (sampleItem.nodeRect.width / sampleItem.image.width)
          sampleItem.image.width sampleItem.image.height (1 / 2) (1 / 2)
        = sampleItem.nodeRect :=
  ⟨by norm_num [sampleItem],
    (coveringTransform_covers sampleItem.nodeRect sampleItem.image (1 / 2) (1 / 2)
      (by norm_num [sampleItem])).1,
    (coveringTransform_covers sampleItem.nodeRect sampleItem.image (1 / 2) (1 / 2)
      (by norm_num [sampleItem])).2.2.2.2.2 (by norm_num [sampleItem])⟩
/-! ## Closing during the show sequence -/

/-- Closing within the DOM-settle delay, the window that C13 as amended leaves
out. `showTimeout` is assigned only inside the callback that `showItem` defers
by the DOM-settle delay, and the handle of that deferred callback is kept
nowhere. On the sample page `showItem` opens item 1 and `performClose` runs
10 ms later: its `clearTimeout(showTimeout)` clears nothing and the deferred
callback stays pending. Firing the scheduled callbacks in due order, with no
further `showItem`: the first adds the open visual state to the closed overlay
and schedules the show completion; the fifth is that completion and installs
the open handlers while the overlay is closed and no item is current; the
eighth installs the scroll handler, after the hide completion that would have
removed it. Had `performClose` arrived after the deferred callback
(`lateClosePage`), the completion would have been cancelled and no handler
installed. -/
theorem hasty_close_installs_handlers :
    (hastyClosePage.isOpen = false ∧ hastyClosePage.showTimeout = none
        ∧ hastyClosePage.now = 10
        ∧ hastyClosePage.timers.map (fun t => (t.id, t.due)) = [(1, 50), (2, 60), (3, 260)])
      ∧ ((fireNextTimes (sampleSite {} 3) 1 hastyClosePage).wrapperOpen = true
        ∧ (fireNextTimes (sampleSite {} 3) 1 hastyClosePage).isOpen = false
        ∧ (fireNextTimes (sampleSite {} 3) 1 hastyClosePage).showTimeout = some 5)
      ∧ ((earliestTimer (fireNextTimes (sampleSite {} 3) 4 hastyClosePage)).map
            (fun t => t.callback) = some (Callback.showDone 0)
        ∧ (fireNextTimes (sampleSite {} 3) 4 hastyClosePage).openHandlers 0 = false
        ∧ (fireNextTimes (sampleSite {} 3) 5 hastyClosePage).openHandlers 0 = true
        ∧ (fireNextTimes (sampleSite {} 3) 5 hastyClosePage).isOpen = false
        ∧ (fireNextTimes (sampleSite {} 3) 5 hastyClosePage).currentItem 0 = none
        ∧ (fireNextTimes (sampleSite {} 3) 5 hastyClosePage).wrapperHidden = true
        ∧ (fireNextTimes (sampleSite {} 3) 5 hastyClosePage).now = 300)
      ∧ ((fireNextTimes (sampleSite {} 3) 8 hastyClosePage).scrollHandler 0 = true
        ∧ (fireNextTimes (sampleSite {} 3) 8 hastyClosePage).openHandlers 0 = true
        ∧ (fireNextTimes (sampleSite {} 3) 8 hastyClosePage).isOpen = false
        ∧ (fireNextTimes (sampleSite {} 3) 8 hastyClosePage).timers = [])
      ∧ (lateClosePage.isOpen = false
        ∧ lateClosePage.timers.map (fun t => (t.id, t.due))
            = [(2, 100), (4, 110), (5, 310)]
        ∧ (fireNextTimes (sampleSite {} 3) 5 lateClosePage).timers = []
        ∧ (fireNextTimes (sampleSite {} 3) 5 lateClosePage).openHandlers 0 = false
        ∧ (fireNextTimes (sampleSite {} 3) 5 lateClosePage).scrollHandler 0 = false) := by
  refine ⟨⟨rfl, rfl, rfl, rfl⟩, ⟨rfl, rfl, rfl⟩, ⟨rfl, rfl, rfl, rfl, rfl, rfl, rfl⟩,
    ⟨rfl, rfl, rfl, rfl⟩, ⟨rfl, rfl, rfl, rfl, rfl⟩⟩

theorem ShowCancelled.after_performClose {site : Site} {s : Page}
    (h : ShowCancelled s) (g : Nat) (f : Bool) :
    ShowCancelled (performClose site g f s).page := by
  rw [performClose_of_closed site g f s h.1]; exact h

theorem ShowCancelled.after_setTimeout {s : Page} (h : ShowCancelled s) (cb : Callback)
    (d : Nat) (h1 : cb.isShowUpdate = false) (h2 : cb.isShowDone = false) :
    ShowCancelled (setTimeout cb d s) := by
  refine ⟨h.1, h.2.1, h.2.2.1, ?_⟩
  intro t ht
  simp only [Lightlook.setTimeout, List.mem_append, List.mem_singleton] at ht
  rcases ht with ht | ht
  · exact h.2.2.2 t ht
  · subst ht; exact ⟨h1, h2⟩

theorem ShowCancelled.after_runCallback {site : Site} {s : Page}
    (h : ShowCancelled s) (cb : Callback)
    (hk : cb.isShowUpdate = false ∧ cb.isShowDone = false) :
    ShowCancelled (runCallback site cb s) := by
  cases cb with
  | showUpdate g' it a b => simp [Callback.isShowUpdate] at hk
  | showDone g' => simp [Callback.isShowDone] at hk
  | installScroll g' => exact ⟨h.1, h.2.1, h.2.2.1, h.2.2.2⟩
  | transitionStart toT d =>
    have h2 : ShowCancelled (applyTo toT { s with imageUsesTransitions := true }) :=
      ⟨h.1, h.2.1, h.2.2.1, h.2.2.2⟩
    exact h2.after_setTimeout _ _ rfl rfl
  | transitionEnd => exact ⟨h.1, h.2.1, h.2.2.1, h.2.2.2⟩
  | unblock => exact ⟨h.1, h.2.1, h.2.2.1, h.2.2.2⟩
  | hideDone g' f =>
    unfold Lightlook.runCallback
    cases hc : s.currentItem g' with
    | none => simpa [hc] using h
    | some cur =>
      simp only [hc]
      cases f with
      | false => exact ⟨h.1, h.2.1, h.2.2.1, h.2.2.2⟩
      | true => exact ⟨h.1, h.2.1, h.2.2.1, h.2.2.2⟩

theorem ShowCancelled.after_fireTimer {site : Site} {s : Page}
    (h : ShowCancelled s) (id : Nat) : ShowCancelled (fireTimer site id s) := by
  unfold Lightlook.fireTimer
  cases hf : s.timers.find? (fun t => t.id = id) with
  | none => exact h
  | some t =>
    have hmem : t ∈ s.timers := List.mem_of_find?_eq_some hf
    have h1 : ShowCancelled
        { s with timers := s.timers.filter (fun u => u.id ≠ id), now := max s.now t.due } :=
      ⟨h.1, h.2.1, h.2.2.1, fun u hu => h.2.2.2 u (List.mem_of_mem_filter hu)⟩
    exact h1.after_runCallback t.callback (h.2.2.2 t hmem)

theorem ShowCancelled.after_run {site : Site} (acts : List Action) :
    ∀ s : Page, ShowCancelled s → (∀ a ∈ acts, a.closesOrFires) →
      ShowCancelled (run site acts s) := by
  induction acts with
  | nil => intro s h _; exact h
  | cons a as ih =>
    intro s h ha
    simp only [Lightlook.run, List.foldl_cons]
    refine ih _ ?_ (fun b hb => ha b (List.mem_cons_of_mem _ hb))
    have ha0 := ha a (List.mem_cons_self _ _)
    cases a with
    | performClose g' f => exact h.after_performClose g' f
    | timer id => exact h.after_fireTimer id
    | _ => exact ha0.elim

/-- Why the amended C13 asks that no other gallery has its open handlers
installed: `performClose` removes only the listeners of the gallery it is
called on (lines 486-493 name `this.close` and this gallery's closures). On
`twoGalleryPage` the overlay is open with gallery 1 current and nothing of a
show sequence pending; `performClose` of gallery 1 closes the overlay and the
open handlers of gallery 0 stay installed, whatever fires afterwards. -/
theorem other_gallery_handlers_survive_close :
    (twoGalleryPage.isOpen = true
        ∧ twoGalleryPage.currentItem 1 = some { gallery := 1, index := 0 }
        ∧ twoGalleryPage.openHandlers 0 = true
        ∧ twoGalleryPage.timers = [])
      ∧ (performClose (sampleSite {} 3) 1 true twoGalleryPage).page.isOpen = false
      ∧ (performClose (sampleSite {} 3) 1 true twoGalleryPage).page.openHandlers 0 = true
      ∧ (fireNextTimes (sampleSite {} 3) 3
          (performClose (sampleSite {} 3) 1 true twoGalleryPage).page).timers = []
      ∧ (fireNextTimes (sampleSite {} 3) 3
          (performClose (sampleSite {} 3) 1 true twoGalleryPage).page).openHandlers 0 = true
      ∧ (fireNextTimes (sampleSite {} 3) 3
          (performClose (sampleSite {} 3) 1 true twoGalleryPage).page).isOpen = false := by
  refine ⟨⟨rfl, rfl, rfl, rfl⟩, rfl, rfl, rfl, rfl, rfl⟩

/-- C13, the claim as stated fails: `performClose` clears the one timer that
`showTimeout` names and nothing else. On the sample page the show completion
runs at 300 ms and schedules the installation of the scroll handler for 550 ms;
`performClose` arrives at 400 ms and leaves that timer pending. With the
callbacks firing in due order and no further `showItem`, the third to fire is
the installation: the scroll handler is installed while the overlay is closed.
The hide completion, due at 650 ms, removes it again. -/
theorem close_lets_scroll_install_run :
    (settledClosePage.isOpen = false ∧ settledClosePage.now = 400
        ∧ settledClosePage.scrollHandler 0 = false
        ∧ settledClosePage.timers.map (fun t => (t.id, t.due))
            = [(4, 350), (5, 550), (6, 450), (7, 650)])
      ∧ (earliestTimer (fireNextTimes (sampleSite {} 3) 2 settledClosePage)).map
          (fun t => t.callback) = some (Callback.installScroll 0)
      ∧ ((fireNextTimes (sampleSite {} 3) 3 settledClosePage).scrollHandler 0 = true
        ∧ (fireNextTimes (sampleSite {} 3) 3 settledClosePage).isOpen = false
        ∧ (fireNextTimes (sampleSite {} 3) 3 settledClosePage).now = 550)
      ∧ ((fireNextTimes (sampleSite {} 3) 4 settledClosePage).scrollHandler 0 = false
        ∧ (fireNextTimes (sampleSite {} 3) 4 settledClosePage).now = 650) := by
  refine ⟨⟨rfl, rfl, rfl, rfl⟩, rfl, ⟨rfl, rfl, rfl⟩, ⟨rfl, rfl⟩⟩

/-- C13 as amended: let `performClose` of gallery `g` run on an open overlay
with a current item, at a moment when the deferred callback of `showItem` is no
longer pending, the only pending show completion is the one `showTimeout`
names, and no other gallery has its open handlers installed. Then through
every sequence of further steps that are firings of scheduled callbacks or
calls of `performClose` on any gallery (no `showItem`), the overlay stays
closed, the open visual state is not added, the open handlers of no gallery
are installed, and neither the deferred callback nor a show completion is
pending. Every other timer that was pending, such as an installation of the
scroll handler, is still pending after `performClose`. -/
theorem performClose_cancels_show_completion (site : Site) (g : Nat) (f : Bool) (s : Page)
    (cur : ItemRef) (acts : List Action) (p : Page)
    (hopen : s.isOpen = true) (hcur : s.currentItem g = some cur)
    (hupd : ∀ t ∈ s.timers, t.callback.isShowUpdate = false)
    (hdone : ∀ t ∈ s.timers, t.callback.isShowDone = true → s.showTimeout = some t.id)
    (hothers : ∀ g' : Nat, g' ≠ g → s.openHandlers g' = false)
    (hacts : ∀ a ∈ acts, a.closesOrFires)
    (hp : p = run site acts (performClose site g f s).page) :
    p.isOpen = false ∧ (∀ g' : Nat, p.openHandlers g' = false) ∧ p.wrapperOpen = false
      ∧ (∀ t ∈ p.timers, t.callback.isShowUpdate = false ∧ t.callback.isShowDone = false)
      ∧ (∀ t ∈ s.timers, some t.id ≠ s.showTimeout →
          t ∈ (performClose site g f s).page.timers) := by
  have hpc := performClose_eq site g f s cur hopen hcur
  have h0 : ShowCancelled (performClose site g f s).page := by
    rw [hpc]
    refine ⟨rfl, ?_, rfl, ?_⟩
    · intro g'
      by_cases hg : g' = g
      · subst hg; simp [done]
      · simp [done, Function.update_noteq hg, hothers g' hg]
    · intro t ht
      simp only [done, List.mem_append, List.mem_cons, List.mem_singleton, List.not_mem_nil,
        or_false] at ht
      rcases ht with ht | ht | ht
      · have hin := List.mem_of_mem_filter ht
        have hne := List.of_mem_filter ht
        refine ⟨hupd t hin, ?_⟩
        cases hd : t.callback.isShowDone with
        | false => rfl
        | true =>
          have := hdone t hin hd
          simp [this] at hne
      · subst ht; exact ⟨rfl, rfl⟩
      · subst ht; exact ⟨rfl, rfl⟩
  have h : ShowCancelled (run site acts (performClose site g f s).page) :=
    ShowCancelled.after_run acts _ h0 hacts
  rw [← hp] at h
  refine ⟨h.1, h.2.1, h.2.2.1, h.2.2.2, ?_⟩
  intro t ht hne
  rw [hpc]
  simp only [done, List.mem_append]
  exact Or.inl (List.mem_filter.2 ⟨ht, by simpa using hne⟩)

/-- The amended claim on the sample page: `performClose` arrives 10 ms after the
deferred callback has run; whatever fires afterwards, and whichever gallery
`performClose` is called on again, the open handlers of every gallery stay
absent. -/
theorem performClose_cancels_show_completion_witness :
    (settlingPage.isOpen = true
        ∧ settlingPage.currentItem 0 = some { gallery := 0, index := 1 }
        ∧ (∀ t ∈ settlingPage.timers, t.callback.isShowUpdate = false)
        ∧ (∀ t ∈ settlingPage.timers, t.callback.isShowDone = true →
            settlingPage.showTimeout = some t.id)
        ∧ (∀ g' : Nat, g' ≠ 0 → settlingPage.openHandlers g' = false)
        ∧ (∀ a ∈ [Action.timer 2, .timer 4, .timer 3, .timer 5, .performClose 0 false,
                  .performClose 1 true, .timer 6, .timer 7], a.closesOrFires))
      ∧ (∀ g' : Nat, (run (sampleSite {} 3)
          [Action.timer 2, .timer 4, .timer 3, .timer 5, .performClose 0 false,
           .performClose 1 true, .timer 6, .timer 7]
          (performClose (sampleSite {} 3) 0 true settlingPage).page).openHandlers g' = false)
      ∧ (run (sampleSite {} 3)
          [Action.timer 2, .timer 4, .timer 3, .timer 5, .performClose 0 false,
           .performClose 1 true, .timer 6, .timer 7]
          (performClose (sampleSite {} 3) 0 true settlingPage).page).wrapperOpen = false
      ∧ (run (sampleSite {} 3)
          [Action.timer 2, .timer 4, .timer 3, .timer 5, .performClose 0 false,
           .performClose 1 true, .timer 6, .timer 7]
          (performClose (sampleSite {} 3) 0 true settlingPage).page).timers = [] := by
  have hupd : ∀ t ∈ settlingPage.timers, t.callback.isShowUpdate = false := by decide
  have hdone : ∀ t ∈ settlingPage.timers, t.callback.isShowDone = true →
      settlingPage.showTimeout = some t.id := by decide
  have hothers : ∀ g' : Nat, g' ≠ 0 → settlingPage.openHandlers g' = false :=
    fun _ _ => rfl
  have hacts : ∀ a ∈ [Action.timer 2, .timer 4, .timer 3, .timer 5, .performClose 0 false,
      .performClose 1 true, .timer 6, .timer 7], a.closesOrFires := by
    simp [Action.closesOrFires]
  have h := performClose_cancels_show_completion (sampleSite {} 3) 0 true settlingPage
    { gallery := 0, index := 1 }
    [Action.timer 2, .timer 4, .timer 3, .timer 5, .performClose 0 false,
     .performClose 1 true, .timer 6, .timer 7]
    _ rfl rfl hupd hdone hothers hacts rfl
  exact ⟨⟨rfl, rfl, hupd, hdone, hothers, hacts⟩, h.2.1, h.2.2.1, rfl⟩

end Lightlook
